import Mathlib

set_option maxRecDepth 8000

/-!
Verification of the two auxiliary scripts of the Paper_Scissor_Stone
repository: `visual_sequence_tester.py` (the sequence test-artifact
generator) and `combination_similarity_analysis.py` (the similarity
reporter).  Python values, strings, and the behaviour of the `json`
module are shallowly embedded; Python machine floats are modelled as
exact decimals (the repository's data are short plain decimals), and
the generated browser harness (a JavaScript program emitted as text by
the generator) is embedded as a state-passing interpreter over an
abstract browser environment.
-/

/-- Numbers as Python's `json.load` produces them: a Python `int`, or a
Python `float` recorded by its shortest-repr decimal expansion — `dec m e`
is the float `m / 10 ^ e`, printed with `e` digits after the point
(so `dec 425 1` is `42.5`).  Floats whose repr needs exponent notation,
infinities and NaN are outside the model. -/
inductive JNum where
  | int (n : Int)
  | dec (m : Int) (e : Nat)
deriving DecidableEq, Repr

mutual

/-- JSON documents as Python's `json.load` produces them: `None`, `bool`,
numbers, `str`, `list`, and `dict` with string keys in insertion order.
Lists and member lists are their own inductives (`JItems`, `JFields`) so
that every function on documents is structurally recursive. -/
inductive JSON where
  | null
  | bool (b : Bool)
  | num (n : JNum)
  | str (s : String)
  | arr (xs : JItems)
  | obj (fs : JFields)

/-- A list of JSON values (a Python `list`). -/
inductive JItems where
  | nil
  | cons (x : JSON) (xs : JItems)

/-- An ordered list of `"key": value` members (a Python `dict`). -/
inductive JFields where
  | nil
  | cons (k : String) (v : JSON) (fs : JFields)

end

/-- Build a `JItems` from a Lean list. -/
def JItems.ofList : List JSON → JItems
  | [] => .nil
  | x :: xs => .cons x (JItems.ofList xs)

/-- Build a `JFields` from a Lean association list. -/
def JFields.ofList : List (String × JSON) → JFields
  | [] => .nil
  | (k, v) :: fs => .cons k v (JFields.ofList fs)

/-- Decimal digit character for a digit value (values `≥ 9` map to `'9'`;
all uses are at digit values `< 10`). -/
def digitChar : Nat → Char
  | 0 => '0'
  | 1 => '1'
  | 2 => '2'
  | 3 => '3'
  | 4 => '4'
  | 5 => '5'
  | 6 => '6'
  | 7 => '7'
  | 8 => '8'
  | _ => '9'

/-- Decimal digits of `n`, least significant first, with explicit fuel so
that the definition is structurally recursive (`natDigitsAux n n` equals
`Nat.digits 10 n`; see `natDigitsLSB_eq_digits`). -/
def natDigitsAux : Nat → Nat → List Nat
  | 0, _ => []
  | fuel + 1, n => if n = 0 then [] else n % 10 :: natDigitsAux fuel (n / 10)

/-- Decimal digits of `n`, least significant first. -/
def natDigitsLSB (n : Nat) : List Nat := natDigitsAux n n

/-- Decimal digit characters of a natural number, most significant first,
as Python's `str` renders it. -/
def natChars (n : Nat) : List Char :=
  if n = 0 then ['0'] else ((natDigitsLSB n).map digitChar).reverse

/-- Decimal rendering of a Python `int`. -/
def intChars (i : Int) : List Char :=
  if i < 0 then '-' :: natChars i.natAbs else natChars i.natAbs

/-- Pad a digit string on the left with `'0'` up to length `e`. -/
def padZeros (e : Nat) (l : List Char) : List Char :=
  List.replicate (e - l.length) '0' ++ l

/-- Rendering of a `JNum` exactly as Python's `str`/`repr`/`json.dumps`
render the corresponding `int` or `float` (`dec 425 1` ↦ `"42.5"`). -/
def numChars : JNum → List Char
  | .int n => intChars n
  | .dec m e =>
      (if m < 0 then ['-'] else []) ++ natChars (m.natAbs / 10 ^ e)
        ++ '.' :: padZeros e (natChars (m.natAbs % 10 ^ e))

/-- Round `a / d` to the nearest integer, ties to even (`d > 0`). -/
def roundHalfEven (a d : Nat) : Nat :=
  let q := a / d
  let r := a % d
  if 2 * r < d then q
  else if d < 2 * r then q + 1
  else if q % 2 = 0 then q else q + 1

/-- Embedding of Python's fixed-point conversion `f"{x:.1f}"` on the model's
numbers: one digit after the point, exact-decimal rounding half to even.
(CPython rounds the underlying binary float; on the decimals of this model
the two agree whenever the decimal is exactly representable, which covers
the repository's data.) -/
def format1f : JNum → String
  | .int n => ⟨intChars n ++ ['.', '0']⟩
  | .dec m e =>
      let t := roundHalfEven m.natAbs (10 ^ (e - 1))
      ⟨(if m < 0 then ['-'] else []) ++ natChars (t / 10) ++ ['.', digitChar (t % 10)]⟩

/-- ASCII lower-to-upper case map (Python `str.upper` on one ASCII char). -/
def asciiUpper : Char → Char
  | 'a' => 'A'
  | 'b' => 'B'
  | 'c' => 'C'
  | 'd' => 'D'
  | 'e' => 'E'
  | 'f' => 'F'
  | 'g' => 'G'
  | 'h' => 'H'
  | 'i' => 'I'
  | 'j' => 'J'
  | 'k' => 'K'
  | 'l' => 'L'
  | 'm' => 'M'
  | 'n' => 'N'
  | 'o' => 'O'
  | 'p' => 'P'
  | 'q' => 'Q'
  | 'r' => 'R'
  | 's' => 'S'
  | 't' => 'T'
  | 'u' => 'U'
  | 'v' => 'V'
  | 'w' => 'W'
  | 'x' => 'X'
  | 'y' => 'Y'
  | 'z' => 'Z'
  | c => c

/-- ASCII upper-to-lower case map (Python `str.lower` on one ASCII char). -/
def asciiLower : Char → Char
  | 'A' => 'a'
  | 'B' => 'b'
  | 'C' => 'c'
  | 'D' => 'd'
  | 'E' => 'e'
  | 'F' => 'f'
  | 'G' => 'g'
  | 'H' => 'h'
  | 'I' => 'i'
  | 'J' => 'j'
  | 'K' => 'k'
  | 'L' => 'l'
  | 'M' => 'm'
  | 'N' => 'n'
  | 'O' => 'o'
  | 'P' => 'p'
  | 'Q' => 'q'
  | 'R' => 'r'
  | 'S' => 's'
  | 'T' => 't'
  | 'U' => 'u'
  | 'V' => 'v'
  | 'W' => 'w'
  | 'X' => 'x'
  | 'Y' => 'y'
  | 'Z' => 'z'
  | c => c

/-- Whether a char is an ASCII cased letter (the cased chars occurring in the
repository's data; Python's full Unicode casing is outside the model). -/
def casedChar (c : Char) : Bool :=
  ('a' ≤ c && c ≤ 'z') || ('A' ≤ c && c ≤ 'Z')

/-- Worker for `pyTitle`: the flag records whether the previous char was
cased, exactly as CPython's `str.title` scans a string. -/
def titleGo : Bool → List Char → List Char
  | _, [] => []
  | prevCased, c :: r =>
      (if casedChar c then (if prevCased then asciiLower c else asciiUpper c) else c)
        :: titleGo (casedChar c) r

/-- Embedding of Python's `str.title()` (ASCII): the first cased char of
every run of cased chars is uppercased, the rest lowercased. -/
def pyTitle (s : String) : String := ⟨titleGo false s.data⟩

/-- Embedding of Python's `str.replace('_', ' ')` (single-char pattern, so a
per-character map). -/
def replaceUnderscore (s : String) : String :=
  ⟨s.data.map (fun c => if c = '_' then ' ' else c)⟩

/-- Embedding of Python's `s * n` string repetition. -/
def pyRepeat (s : String) (n : Nat) : String := String.join (List.replicate n s)

/-- The five difficulty options (`visual_sequence_tester.py` line 39). -/
def difficulties : List String := ["random", "frequency", "markov", "enhanced", "lstm"]

/-- The three strategy options (line 40). -/
def strategies : List String := ["balanced", "to_win", "not_to_lose"]

/-- The seven personality options (line 41). -/
def personalities : List String :=
  ["neutral", "berserker", "guardian", "chameleon", "professor", "wildcard", "mirror"]

/-- One robot combination record, as the dict appended by
`_generate_robot_combinations` (keys in insertion order: difficulty,
strategy, personality, name). -/
structure Combo where
  difficulty : String
  strategy : String
  personality : String
  name : String
deriving DecidableEq, Repr

/-- Embedding of `_generate_robot_combinations` (lines 37-54): the
triple-nested loop over difficulties (outer), strategies (middle) and
personalities (inner), appending one record per triple whose `name` is the
f-string `f"{difficulty.title()} {strategy.replace('_', ' ').title()}
{personality.title()}"`. -/
def _generate_robot_combinations : List Combo :=
  difficulties.flatMap fun difficulty =>
    strategies.flatMap fun strategy =>
      personalities.map fun personality =>
        { difficulty := difficulty
          strategy := strategy
          personality := personality
          name := pyTitle difficulty ++ " " ++ pyTitle (replaceUnderscore strategy)
                    ++ " " ++ pyTitle personality }

/-- The analyzer's `robot_combinations` attribute, generated once per run. -/
def robot_combinations : List Combo := _generate_robot_combinations

/-- The JSON value `json.dumps` sees for one combination record. -/
def comboJSON (c : Combo) : JSON :=
  .obj (.ofList [("difficulty", .str c.difficulty), ("strategy", .str c.strategy),
        ("personality", .str c.personality), ("name", .str c.name)])

/-- The JSON value `json.dumps` sees for `self.robot_combinations`. -/
def robotCombinationsJSON : JSON := .arr (.ofList (robot_combinations.map comboJSON))

/-- Indentation `json.dumps(..., indent=8)` emits at nesting level `lvl`. -/
def indentChars (lvl : Nat) : List Char := List.replicate (8 * lvl) ' '

/-- JSON string escaping of one character as `json.dumps` performs it (the
escapes that can arise in this model's strings; control characters below
0x20 other than newline/tab/return and non-ASCII text, which `dumps` would
escape as `\uXXXX`, are outside the model). -/
def escJsonChar (c : Char) : List Char :=
  if c = '"' then ['\\', '"']
  else if c = '\\' then ['\\', '\\']
  else if c = '\n' then ['\\', 'n']
  else if c = '\t' then ['\\', 't']
  else if c = '\r' then ['\\', 'r']
  else [c]

/-- Body of a JSON string literal emitted by `json.dumps`. -/
def escStrChars (s : String) : List Char := s.data.flatMap escJsonChar

mutual

/-- Embedding of `json.dumps(v, indent=8)` (as used at lines 65-66): the
rendered characters of one value at nesting level `lvl`.  With `indent` set,
Python uses item separator `","` and key separator `": "`, a newline plus
deeper indentation before every item, and the closing bracket on its own
line at the parent indentation; empty containers render as `[]` / `{}`. -/
def dumpVal : JSON → Nat → List Char
  | .null, _ => ['n', 'u', 'l', 'l']
  | .bool true, _ => ['t', 'r', 'u', 'e']
  | .bool false, _ => ['f', 'a', 'l', 's', 'e']
  | .num n, _ => numChars n
  | .str s, _ => '"' :: (escStrChars s ++ ['"'])
  | .arr .nil, _ => ['[', ']']
  | .arr (.cons x xs), lvl =>
      '[' :: '\n' :: (indentChars (lvl + 1) ++ dumpVal x (lvl + 1)
        ++ dumpItemsRest xs (lvl + 1) ++ '\n' :: (indentChars lvl ++ [']']))
  | .obj .nil, _ => ['\x7b', '\x7d']
  | .obj (.cons k v fs), lvl =>
      '\x7b' :: '\n' :: (indentChars (lvl + 1)
        ++ '"' :: (escStrChars k ++ '"' :: ':' :: ' ' :: dumpVal v (lvl + 1))
        ++ dumpFieldsRest fs (lvl + 1) ++ '\n' :: (indentChars lvl ++ ['\x7d']))

/-- Second and later array items, each preceded by `",\n" + indent`. -/
def dumpItemsRest : JItems → Nat → List Char
  | .nil, _ => []
  | .cons x xs, lvl => ',' :: '\n' :: (indentChars lvl ++ dumpVal x lvl ++ dumpItemsRest xs lvl)

/-- Second and later object members (`"key": value`), each preceded by
`",\n" + indent`. -/
def dumpFieldsRest : JFields → Nat → List Char
  | .nil, _ => []
  | .cons k v fs, lvl =>
      ',' :: '\n' :: (indentChars lvl
        ++ '"' :: (escStrChars k ++ '"' :: ':' :: ' ' :: dumpVal v lvl)
        ++ dumpFieldsRest fs lvl)

end

/-- Embedding of the expression `json.dumps(v, indent=8)`. -/
def jsonDumps (v : JSON) : String := ⟨dumpVal v 0⟩

/-- JSON whitespace characters. -/
def wsChar (c : Char) : Bool := c = ' ' || c = '\n' || c = '\t' || c = '\r'

/-- Skip leading whitespace. -/
def skipWs (l : List Char) : List Char := l.dropWhile wsChar

/-- Value of a decimal digit character. -/
def digitVal (c : Char) : Nat := c.toNat - 48

/-- Numeric value of a most-significant-first digit string. -/
def chToNat (l : List Char) : Nat := l.foldl (fun a c => 10 * a + digitVal c) 0

/-- Parse the body of a JSON string literal, the opening quote already
consumed: the characters up to the closing quote.  (Escape sequences inside
string literals are outside the model; the round-trip theorems only concern
strings whose serialization needs no escapes.) -/
def parseStrTok (l : List Char) : Option (String × List Char) :=
  match l.dropWhile (fun c => c != '"') with
  | '"' :: r => some (⟨l.takeWhile (fun c => c != '"')⟩, r)
  | _ => none

/-- Negate the numeric value of a number parse result (the leading minus
sign of a number token). -/
def negNumRes : JSON × List Char → JSON × List Char
  | (.num (.int n), r) => (.num (.int (-n)), r)
  | (.num (.dec m e), r) => (.num (.dec (-m) e), r)
  | p => p

/-- Parse the digits of a JSON number token: integer digits and an optional
fraction whose digit count is recorded in the `dec` exponent (exponent
notation is outside the model, matching `numChars`). -/
def parseNumCore (l1 : List Char) : Option (JSON × List Char) :=
  let ds := l1.takeWhile Char.isDigit
  let r1 := l1.dropWhile Char.isDigit
  if ds.isEmpty then none
  else
    match r1 with
    | [] => some (.num (.int (chToNat ds)), [])
    | c :: r2 =>
        if c = '.' then
          let fs := r2.takeWhile Char.isDigit
          let r3 := r2.dropWhile Char.isDigit
          if fs.isEmpty then none
          else some (.num (.dec (chToNat ds * 10 ^ fs.length + chToNat fs) fs.length), r3)
        else some (.num (.int (chToNat ds)), c :: r2)

/-- Parse a JSON number token: optional minus sign, then digits. -/
def parseNumTok (l : List Char) : Option (JSON × List Char) :=
  match l with
  | [] => none
  | c :: r => if c = '-' then (parseNumCore r).map negNumRes else parseNumCore (c :: r)

/-- Match an expected literal character sequence, then yield `res`. -/
def expectChars (res : JSON) : List Char → List Char → Option (JSON × List Char)
  | [], l => some (res, l)
  | p :: ps, c :: l => if c = p then expectChars res ps l else none
  | _ :: _, [] => none

mutual

/-- Parse one JSON value (`fuel` bounds the recursion; every artifact is
parsed with its own length as fuel, which always suffices because every
recursive step sits behind at least one consumed character). -/
def parseVal : Nat → List Char → Option (JSON × List Char)
  | 0, _ => none
  | fuel + 1, l =>
      match skipWs l with
      | [] => none
      | c :: r =>
          if c = 'n' then expectChars .null ['u', 'l', 'l'] r
          else if c = 't' then expectChars (.bool true) ['r', 'u', 'e'] r
          else if c = 'f' then expectChars (.bool false) ['a', 'l', 's', 'e'] r
          else if c = '"' then
            match parseStrTok r with
            | some (s, r1) => some (.str s, r1)
            | none => none
          else if c = '[' then
            match skipWs r with
            | c1 :: r1 =>
                if c1 = ']' then some (.arr .nil, r1)
                else
                  match parseItems fuel r with
                  | some (xs, r2) => some (.arr xs, r2)
                  | none => none
            | [] => none
          else if c = '\x7b' then
            match skipWs r with
            | c1 :: r1 =>
                if c1 = '\x7d' then some (.obj .nil, r1)
                else
                  match parseFields fuel r with
                  | some (fs, r2) => some (.obj fs, r2)
                  | none => none
            | [] => none
          else parseNumTok (c :: r)

/-- Parse one or more comma-separated array items up to the closing `]`. -/
def parseItems : Nat → List Char → Option (JItems × List Char)
  | 0, _ => none
  | fuel + 1, l =>
      match parseVal fuel l with
      | none => none
      | some (v, r) =>
          match skipWs r with
          | c :: r1 =>
              if c = ',' then
                match parseItems fuel r1 with
                | some (xs, r2) => some (.cons v xs, r2)
                | none => none
              else if c = ']' then some (.cons v .nil, r1)
              else none
          | [] => none

/-- Parse one or more comma-separated `"key": value` members up to the
closing brace. -/
def parseFields : Nat → List Char → Option (JFields × List Char)
  | 0, _ => none
  | fuel + 1, l =>
      match skipWs l with
      | c :: r =>
          if c = '"' then
            match parseStrTok r with
            | none => none
            | some (k, r1) =>
                match skipWs r1 with
                | c1 :: r2 =>
                    if c1 = ':' then
                      match parseVal fuel r2 with
                      | none => none
                      | some (v, r3) =>
                          match skipWs r3 with
                          | c2 :: r4 =>
                              if c2 = ',' then
                                match parseFields fuel r4 with
                                | some (fs, r5) => some (.cons k v fs, r5)
                                | none => none
                              else if c2 = '\x7d' then some (.cons k v .nil, r4)
                              else none
                          | [] => none
                    else none
                | [] => none
          else none
      | [] => none

end

/-- Parse a complete JSON document as Python's `json.loads` accepts it (in
the plain-decimal, escape-free fragment of the model): one value, possibly
surrounded by whitespace, consuming the whole input. -/
def jsonLoads (s : String) : Option JSON :=
  match parseVal s.data.length s.data with
  | some (v, rest) => if (skipWs rest).isEmpty then some v else none
  | none => none

/-! Template text of the generated artifacts, extracted verbatim from the
string literals of `visual_sequence_tester.py`: `jsPart1/2/3` are the three
plain string constants around the two `json.dumps` calls of
`generate_javascript_test_function` (lines 59-304); `htmlPart1..10` are the
constant pieces of the `create_html_test_page` f-string (lines 311-483)
between its nine interpolations; `mdPart1..7` are the constant pieces of
the `manual_instructions` f-string (lines 503-535) between its six
interpolations. -/

/-- Constant JS template text before `json.dumps(self.sequences, indent=8)`. -/
def jsPart1 : String := "\n// Automated Visual Test for Optimal Move Sequences\n// Copy and paste this into the browser console while on the game page\n\nclass OptimalSequenceTester \x7b\n    constructor() \x7b\n        this.sequences = "

/-- Constant JS template text between the two `json.dumps` blobs. -/
def jsPart2 : String := ";\n        this.robotCombinations = "

/-- Constant JS template text after the second `json.dumps` blob. -/
def jsPart3 : String := ";\n        this.currentTest = 0;\n        this.results = [];\n        this.testDelay = 500; // ms between moves\n        this.comboDelay = 2000; // ms between robot combinations\n    \x7d\n    \n    async startTest(gameLength = 25) \x7b\n        console.log(`🎮 Starting automated test with $\x7bgameLength\x7d-move sequences`);\n        \n        const sequenceKey = `$\x7bgameLength\x7d_moves`;\n        if (!this.sequences[sequenceKey]) \x7b\n            console.error(`No sequence found for $\x7bgameLength\x7d moves`);\n            return;\n        \x7d\n        \n        const optimalSequence = this.sequences[sequenceKey];\n        console.log(`📊 Testing sequence: $\x7boptimalSequence.name\x7d`);\n        console.log(`🎯 Expected average win rate: $\x7boptimalSequence.avg_win_rate.toFixed(1)\x7d%`);\n        \n        // Test against all robot combinations\n        for (let i = 0; i < this.robotCombinations.length; i++) \x7b\n            const combo = this.robotCombinations[i];\n            console.log(`\\n🤖 Testing against: $\x7bcombo.name\x7d ($\x7bi + 1\x7d/$\x7bthis.robotCombinations.length\x7d)`);\n            \n            const result = await this.testSequenceAgainstCombo(optimalSequence.sequence, combo);\n            this.results.push(\x7b\n                combo: combo,\n                result: result,\n                sequence_name: optimalSequence.name\n            \x7d);\n            \n            // Add delay between combinations\n            if (i < this.robotCombinations.length - 1) \x7b\n                await this.delay(this.comboDelay);\n            \x7d\n        \x7d\n        \n        this.displayFinalResults(gameLength);\n    \x7d\n    \n    async testSequenceAgainstCombo(sequence, combo) \x7b\n        // Set robot configuration\n        this.setRobotConfiguration(combo);\n        \n        // Reset game first\n        await this.resetGame();\n        \n        // Track results\n        let wins = \x7bhuman: 0, robot: 0, tie: 0\x7d;\n        \n        // Play the sequence\n        for (let i = 0; i < sequence.length; i++) \x7b\n            const move = sequence[i];\n            console.log(`  Move $\x7bi + 1\x7d/$\x7bsequence.length\x7d: Playing $\x7bmove\x7d`);\n            \n            const result = await this.playMove(move);\n            if (result) \x7b\n                wins[result]++;\n            \x7d\n            \n            // Small delay between moves for visual effect\n            await this.delay(this.testDelay);\n        \x7d\n        \n        const totalMoves = wins.human + wins.robot + wins.tie;\n        const winRate = totalMoves > 0 ? (wins.human / totalMoves) * 100 : 0;\n        \n        console.log(`  Results: $\x7bwins.human\x7dW-$\x7bwins.robot\x7dL-$\x7bwins.tie\x7dT ($\x7bwinRate.toFixed(1)\x7d% win rate)`);\n        \n        return \x7b\n            wins: wins,\n            winRate: winRate,\n            totalMoves: totalMoves\n        \x7d;\n    \x7d\n    \n    setRobotConfiguration(combo) \x7b\n        // Set difficulty\n        const difficultySelect = document.getElementById('difficulty');\n        if (difficultySelect) \x7b\n            difficultySelect.value = combo.difficulty;\n            setDifficulty();\n        \x7d\n        \n        // Set strategy\n        const strategySelect = document.getElementById('strategy');\n        if (strategySelect) \x7b\n            strategySelect.value = combo.strategy;\n            setStrategy();\n        \x7d\n        \n        // Set personality\n        const personalitySelect = document.getElementById('personality');\n        if (personalitySelect) \x7b\n            personalitySelect.value = combo.personality;\n            setPersonality();\n        \x7d\n        \n        console.log(`  🔧 Robot configured: $\x7bcombo.difficulty\x7d + $\x7bcombo.strategy\x7d + $\x7bcombo.personality\x7d`);\n    \x7d\n    \n    async resetGame() \x7b\n        return new Promise((resolve) => \x7b\n            if (typeof resetGame === 'function') \x7b\n                resetGame();\n                setTimeout(resolve, 1000); // Wait for reset to complete\n            \x7d else \x7b\n                // Fallback: reload page\n                location.reload();\n            \x7d\n        \x7d);\n    \x7d\n    \n    async playMove(move) \x7b\n        return new Promise((resolve) => \x7b\n            if (typeof submitMove === 'function') \x7b\n                // Store original updateUI to capture results\n                const originalUpdateUI = window.updateUI;\n                let moveResult = null;\n                \n                window.updateUI = function(data) \x7b\n                    // Call original function\n                    originalUpdateUI.call(this, data);\n                    \n                    // Capture result\n                    if (data && data.result) \x7b\n                        moveResult = Array.isArray(data.result) ? data.result[0] : data.result;\n                    \x7d\n                    \n                    // Restore original function\n                    window.updateUI = originalUpdateUI;\n                    \n                    resolve(moveResult);\n                \x7d;\n                \n                // Submit the move\n                submitMove(move);\n            \x7d else \x7b\n                console.error('submitMove function not found');\n                resolve(null);\n            \x7d\n        \x7d);\n    \x7d\n    \n    displayFinalResults(gameLength) \x7b\n        console.log(`\\n` + `=`.repeat(80));\n        console.log(`📈 FINAL TEST RESULTS FOR $\x7bgameLength\x7d-MOVE SEQUENCE`);\n        console.log(`=`.repeat(80));\n        \n        // Calculate overall statistics\n        const totalTests = this.results.length;\n        const avgWinRate = this.results.reduce((sum, r) => sum + r.result.winRate, 0) / totalTests;\n        const beatsCount = this.results.filter(r => r.result.winRate > 50).length;\n        \n        console.log(`🎯 Overall Performance:`);\n        console.log(`   Average Win Rate: $\x7bavgWinRate.toFixed(1)\x7d%`);\n        console.log(`   Beats: $\x7bbeatsCount\x7d/$\x7btotalTests\x7d combinations ($\x7b(beatsCount/totalTests*100).toFixed(1)\x7d%)`);\n        \n        // Find best and worst performing combinations\n        const sortedResults = [...this.results].sort((a, b) => b.result.winRate - a.result.winRate);\n        \n        console.log(`\\n🏆 BEST PERFORMING AGAINST:`);\n        for (let i = 0; i < Math.min(5, sortedResults.length); i++) \x7b\n            const r = sortedResults[i];\n            console.log(`   $\x7bi + 1\x7d. $\x7br.combo.name\x7d: $\x7br.result.winRate.toFixed(1)\x7d% win rate`);\n        \x7d\n        \n        console.log(`\\n🛡️ WORST PERFORMING AGAINST:`);\n        for (let i = 0; i < Math.min(5, sortedResults.length); i++) \x7b\n            const r = sortedResults[sortedResults.length - 1 - i];\n            console.log(`   $\x7bi + 1\x7d. $\x7br.combo.name\x7d: $\x7br.result.winRate.toFixed(1)\x7d% win rate`);\n        \x7d\n        \n        // Create downloadable results\n        this.createDownloadableResults(gameLength);\n    \x7d\n    \n    createDownloadableResults(gameLength) \x7b\n        const resultsData = \x7b\n            gameLength: gameLength,\n            sequenceName: this.results[0]?.sequence_name || 'unknown',\n            timestamp: new Date().toISOString(),\n            summary: \x7b\n                totalTests: this.results.length,\n                avgWinRate: this.results.reduce((sum, r) => sum + r.result.winRate, 0) / this.results.length,\n                beatsCount: this.results.filter(r => r.result.winRate > 50).length\n            \x7d,\n            detailedResults: this.results\n        \x7d;\n        \n        const dataStr = JSON.stringify(resultsData, null, 2);\n        const dataBlob = new Blob([dataStr], \x7btype: 'application/json'\x7d);\n        const url = URL.createObjectURL(dataBlob);\n        \n        const a = document.createElement('a');\n        a.href = url;\n        a.download = `optimal_sequence_test_results_$\x7bgameLength\x7dmoves_$\x7bDate.now()\x7d.json`;\n        a.style.display = 'none';\n        document.body.appendChild(a);\n        a.click();\n        document.body.removeChild(a);\n        URL.revokeObjectURL(url);\n        \n        console.log(`\\n💾 Results saved to download file`);\n    \x7d\n    \n    delay(ms) \x7b\n        return new Promise(resolve => setTimeout(resolve, ms));\n    \x7d\n\x7d\n\n// Create and expose the tester\nwindow.optimalTester = new OptimalSequenceTester();\n\n// Usage instructions\nconsole.log(`\n🎮 OPTIMAL SEQUENCE TESTER LOADED!\n\nTo run the test:\n1. Make sure you're on the game page\n2. Run one of these commands:\n   \n   // Test 25-move sequence\n   optimalTester.startTest(25);\n   \n   // Test 50-move sequence  \n   optimalTester.startTest(50);\n\nThe test will automatically:\n- Configure each robot combination\n- Play the optimal sequence\n- Track results with visual feedback\n- Generate a comprehensive report\n- Download detailed results as JSON\n\n⚠️  Warning: This will take about 15-20 minutes to complete all 105 combinations!\n`);\n"

/-- Chunk 0 of the HTML template head (split only to keep kernel-level character scans shallow). -/
def htmlPart1c0 : String := "\n<!DOCTYPE html>\n<html lang=\"en\">\n<head>\n    <meta charset=\"UTF-8\">\n    <meta name=\"viewport\" content=\"width=device-width, initial-scale=1.0\">\n    <title>Optimal Sequence Test Results</title>\n    <style>\n        body \x7b\n            font-family: 'Courier New', monospace;\n            background: #1a1a1a;\n            color: #00ff88;\n            padding: 20px;\n            line-height: 1.6;\n        \x7d\n        .container \x7b\n            max-width: 1200px;\n            margin: 0 auto;\n        \x7d\n        .header \x7b\n            text-align: center;\n            border-bottom: 2px solid #00ff88;\n            padding-bottom: 20px;\n            margin-bottom: 30px;\n        \x7d\n        .sequence-box \x7b\n            background: #2a2a2a;\n            border: 1px solid #00ff88;\n            border-radius: 8px;\n            padding: 20px;\n            margin: 20px 0;\n        \x7d\n        .move-sequence \x7b\n            display: "

/-- Chunk 1 of the HTML template head (split only to keep kernel-level character scans shallow). -/
def htmlPart1c1 : String := "grid;\n            grid-template-columns: repeat(auto-fit, minmax(60px, 1fr));\n            gap: 10px;\n            margin: 15px 0;\n        \x7d\n        .move \x7b\n            background: #333;\n            border: 1px solid #555;\n            border-radius: 4px;\n            padding: 8px;\n            text-align: center;\n            font-weight: bold;\n        \x7d\n        .move.paper \x7b background: #4CAF50; color: white; \x7d\n        .move.stone \x7b background: #FF9800; color: white; \x7d\n        .move.scissor \x7b background: #F44336; color: white; \x7d\n        .stats \x7b\n            display: grid;\n            grid-template-columns: repeat(auto-fit, minmax(200px, 1fr));\n            gap: 20px;\n            margin: 20px 0;\n        \x7d\n        .stat-card \x7b\n            background: #333;\n            border-radius: 8px;\n            padding: 15px;\n            text-align: center;\n        \x7d\n        .stat-value \x7b\n            font-"

/-- Chunk 2 of the HTML template head (split only to keep kernel-level character scans shallow). -/
def htmlPart1c2 : String := "size: 2em;\n            font-weight: bold;\n            color: #00ff88;\n        \x7d\n        .instructions \x7b\n            background: #2a2a4a;\n            border: 1px solid #4CAF50;\n            border-radius: 8px;\n            padding: 20px;\n            margin: 20px 0;\n        \x7d\n        .copy-button \x7b\n            background: #00ff88;\n            color: #1a1a1a;\n            border: none;\n            padding: 10px 20px;\n            border-radius: 4px;\n            cursor: pointer;\n            font-weight: bold;\n        \x7d\n        .copy-button:hover \x7b\n            background: #00cc66;\n        \x7d\n    </style>\n</head>\n<body>\n    <div class=\"container\">\n        <div class=\"header\">\n            <h1>🎮 Optimal Move Sequences for RPS AI Testing</h1>\n            <p>Scientifically designed sequences to maximize win rate against AI opponents</p>\n        </div>\n        \n        <div class=\"instructions\">\n       "

/-- Chunk 3 of the HTML template head (split only to keep kernel-level character scans shallow). -/
def htmlPart1c3 : String := "     <h2>📋 How to Use</h2>\n            <ol>\n                <li>Open the main game in another tab</li>\n                <li>Copy the JavaScript test code below</li>\n                <li>Open browser developer console (F12)</li>\n                <li>Paste and run the code</li>\n                <li>Follow the console instructions to start automated testing</li>\n            </ol>\n            <p><strong>⚠️ Warning:</strong> Full testing takes 15-20 minutes as it tests all 105 robot combinations!</p>\n        </div>\n        \n        <div class=\"sequence-box\">\n            <h2>🎯 25-Move Optimal Sequence</h2>\n            <div class=\"stats\">\n                <div class=\"stat-card\">\n                    <div class=\"stat-value\">"

/-- Constant HTML template text before the first interpolation. -/
def htmlPart1 : String := htmlPart1c0 ++ htmlPart1c1 ++ htmlPart1c2 ++ htmlPart1c3

/-- Constant HTML template text before interpolation 2. -/
def htmlPart2 : String := "%</div>\n                    <div>Average Win Rate</div>\n                </div>\n                <div class=\"stat-card\">\n                    <div class=\"stat-value\">"

/-- Constant HTML template text before interpolation 3. -/
def htmlPart3 : String := "</div>\n                    <div>Combinations Beaten</div>\n                </div>\n                <div class=\"stat-card\">\n                    <div class=\"stat-value\">"

/-- Constant HTML template text before interpolation 4. -/
def htmlPart4 : String := "</div>\n                    <div>Strategy Type</div>\n                </div>\n            </div>\n            <h3>Sequence:</h3>\n            <div class=\"move-sequence\">\n                "

/-- Constant HTML template text before interpolation 5. -/
def htmlPart5 : String := "\n            </div>\n        </div>\n        \n        <div class=\"sequence-box\">\n            <h2>🎯 50-Move Optimal Sequence</h2>\n            <div class=\"stats\">\n                <div class=\"stat-card\">\n                    <div class=\"stat-value\">"

/-- Constant HTML template text before interpolation 6. -/
def htmlPart6 : String := "%</div>\n                    <div>Average Win Rate</div>\n                </div>\n                <div class=\"stat-card\">\n                    <div class=\"stat-value\">"

/-- Constant HTML template text before interpolation 7. -/
def htmlPart7 : String := "</div>\n                    <div>Combinations Beaten</div>\n                </div>\n                <div class=\"stat-card\">\n                    <div class=\"stat-value\">"

/-- Constant HTML template text before interpolation 8. -/
def htmlPart8 : String := "</div>\n                    <div>Strategy Type</div>\n                </div>\n            </div>\n            <h3>Sequence:</h3>\n            <div class=\"move-sequence\">\n                "

/-- Constant HTML template text before the embedded harness, up to (excluding) the backtick that opens the template literal. -/
def htmlPart9pre : String := "\n            </div>\n        </div>\n        \n        <div class=\"sequence-box\">\n            <h2>🤖 JavaScript Test Code</h2>\n            <p>Copy this code and paste it into the browser console on the game page:</p>\n            <textarea id=\"jsCode\" style=\"width: 100%; height: 200px; background: #1a1a1a; color: #00ff88; border: 1px solid #555; padding: 10px; font-family: monospace;\">// Loading...</textarea>\n            <br><br>\n            <button class=\"copy-button\" onclick=\"copyCode()\">📋 Copy Code to Clipboard</button>\n        </div>\n    </div>\n    \n    <script>\n        // Load the JavaScript code\n        document.getElementById('jsCode').value = "

/-- Constant HTML template text before the embedded harness; its last character is the opening backtick. -/
def htmlPart9 : String := htmlPart9pre ++ "`"

/-- Constant HTML template text after the embedded harness, beginning after the backtick that closes the template literal. -/
def htmlPart10post : String := ";\n        \n        function copyCode() \x7b\n            const textarea = document.getElementById('jsCode');\n            textarea.select();\n            document.execCommand('copy');\n            alert('✅ Code copied to clipboard!');\n        \x7d\n    </script>\n</body>\n</html>\n"

/-- Constant HTML template text after the embedded harness; its first character is the closing backtick. -/
def htmlPart10 : String := "`" ++ htmlPart10post

/-- Constant Markdown template piece 1. -/
def mdPart1 : String := "\n# 🎮 Manual Testing Instructions for Optimal Sequences\n\n## Best 25-Move Sequence ("

/-- Constant Markdown template piece 2. -/
def mdPart2 : String := ")\n**Expected Win Rate: "

/-- Constant Markdown template piece 3. -/
def mdPart3 : String := "%**\n\nSequence: "

/-- Constant Markdown template piece 4. -/
def mdPart4 : String := "\n\n## Best 50-Move Sequence ("

/-- Constant Markdown template piece 5. -/
def mdPart5 : String := ")\n**Expected Win Rate: "

/-- Constant Markdown template piece 6. -/
def mdPart6 : String := "%**\n\nSequence: "

/-- Constant Markdown template piece 7. -/
def mdPart7 : String := "\n\n## How to Test Manually:\n1. Set game length to 25 or 50 moves\n2. Configure robot: Try different difficulty/strategy/personality combinations\n3. Play the sequence exactly as shown above\n4. Compare your win rate to the expected rate\n\n## Recommended Test Combinations:\n### Most Vulnerable (Easy to beat):\n- Random + Not to Lose + Any personality\n- Frequency + Balanced + Neutral\n\n### Most Resilient (Hardest to beat):\n- Markov + Balanced + Chameleon\n- Enhanced + To Win + Berserker\n\n## Tips:\n- The sequences work best when played exactly as designed\n- Some combinations may still be difficult due to randomness\n- Results may vary ±10% due to random elements in AI\n"



/-- Abnormal termination of the Python process: `sys.exit(code)`, or an
uncaught exception (recorded by its class name), which also makes the
interpreter exit with a non-zero status after printing a traceback. -/
inductive PyAbort where
  | exit (code : Nat)
  | exc (kind : String)
deriving DecidableEq, Repr

/-- Python `d[key]` member lookup on a dict's members. -/
def jfGet : JFields → String → Option JSON
  | .nil, _ => none
  | .cons k v fs, key => if k = key then some v else jfGet fs key

/-- Python subscription `v[key]` with a string key on a `json.load`ed value:
`KeyError` if the dict lacks the key, `TypeError` when `v` is not a dict
(string/list subscription with a string key also raises `TypeError`). -/
def pyGet (v : JSON) (key : String) : Except PyAbort JSON :=
  match v with
  | .obj fs =>
      match jfGet fs key with
      | some x => .ok x
      | none => .error (.exc "KeyError")
  | _ => .error (.exc "TypeError")

/-- Python attribute call `.title()` and friends: succeeds only on `str`
(`AttributeError` otherwise). -/
def pyStrAttr (v : JSON) : Except PyAbort String :=
  match v with
  | .str s => .ok s
  | _ => .error (.exc "AttributeError")

/-- Python format `f"{v:.1f}"`: defined on numbers, `TypeError`/`ValueError`
on other values (collapsed to one exception kind in the model). -/
def pyNumFmt (v : JSON) : Except PyAbort JNum :=
  match v with
  | .num n => .ok n
  | _ => .error (.exc "TypeError")

mutual

/-- Python `str(v)` for a `json.load`ed value, as f-string interpolation
`f"{v}"` renders it: strings insert as-is, containers render via `repr` of
their elements. -/
def pyStr : JSON → String
  | .null => "None"
  | .bool true => "True"
  | .bool false => "False"
  | .num n => ⟨numChars n⟩
  | .str s => s
  | .arr xs => "[" ++ pyReprItems xs ++ "]"
  | .obj fs => "\x7b" ++ pyReprFields fs ++ "\x7d"
termination_by structural v => v

/-- Python `repr(v)`: like `pyStr` but strings are single-quoted (quote and
escape subtleties inside such strings are outside the model; no claim
depends on them). -/
def pyReprVal : JSON → String
  | .null => "None"
  | .bool true => "True"
  | .bool false => "False"
  | .num n => ⟨numChars n⟩
  | .str s => "'" ++ s ++ "'"
  | .arr xs => "[" ++ pyReprItems xs ++ "]"
  | .obj fs => "\x7b" ++ pyReprFields fs ++ "\x7d"
termination_by structural v => v

/-- Comma-separated `repr`s of list elements. -/
def pyReprItems : JItems → String
  | .nil => ""
  | .cons x .nil => pyReprVal x
  | .cons x xs => pyReprVal x ++ ", " ++ pyReprItems xs
termination_by structural xs => xs

/-- Comma-separated `key: value` reprs of dict members. -/
def pyReprFields : JFields → String
  | .nil => ""
  | .cons k v .nil => "'" ++ k ++ "': " ++ pyReprVal v
  | .cons k v fs => "'" ++ k ++ "': " ++ pyReprVal v ++ ", " ++ pyReprFields fs
termination_by structural fs => fs

end

/-- Python `sep.join(strings)`. -/
def pyJoin (sep : String) : List String → String := String.intercalate sep

/-- Elements of a `json.load`ed list when each must be a `str` (Python's
`str.join` raises `TypeError` on a non-string element). -/
def jitemsStrs : JItems → Except PyAbort (List String)
  | .nil => .ok []
  | .cons (.str s) xs =>
      match jitemsStrs xs with
      | .ok ss => .ok (s :: ss)
      | .error e => .error e
  | .cons _ _ => .error (.exc "TypeError")

/-- Embedding of `' → '.join(v)` over a loaded sequence value as the
Markdown template uses it (iterating a non-list is outside the model and
collapsed to `TypeError`). -/
def mdJoinSeq (v : JSON) : Except PyAbort String :=
  match v with
  | .arr xs =>
      match jitemsStrs xs with
      | .ok ss => .ok (pyJoin " → " ss)
      | .error e => .error e
  | _ => .error (.exc "TypeError")

/-- One `<div class="move ...">` cell of the HTML move grid: the inner
f-string `f'<div class="move {move}">{move.title()}</div>'` of the list
comprehension at lines 435/457. -/
def moveDiv (move : JSON) : Except PyAbort String :=
  match pyStrAttr move with
  | .ok t => .ok ("<div class=\"move " ++ pyStr move ++ "\">" ++ pyTitle t ++ "</div>")
  | .error e => .error e

/-- The move cells of one sequence, left to right. -/
def moveDivs : JItems → Except PyAbort (List String)
  | .nil => .ok []
  | .cons x xs =>
      match moveDiv x, moveDivs xs with
      | .ok d, .ok ds => .ok (d :: ds)
      | .error e, _ => .error e
      | _, .error e => .error e

/-- Embedding of `' '.join([f'<div class="move {move}">{move.title()}</div>'
for move in v])`. -/
def htmlMoves (v : JSON) : Except PyAbort String :=
  match v with
  | .arr xs =>
      match moveDivs xs with
      | .ok ds => .ok (pyJoin " " ds)
      | .error e => .error e
  | _ => .error (.exc "TypeError")

/-- Embedding of `generate_javascript_test_function` (lines 56-306): the
three template constants around `json.dumps(self.sequences, indent=8)` and
`json.dumps(self.robot_combinations, indent=8)`. -/
def generate_javascript_test_function (sequences : JSON) : String :=
  jsPart1 ++ jsonDumps sequences ++ jsPart2 ++ jsonDumps robotCombinationsJSON ++ jsPart3

/-- Embedding of Python's `.replace('`', '\\`')` at line 472: every backtick
gains a preceding backslash. -/
def escapeBTChars : List Char → List Char
  | [] => []
  | c :: r => if c = '`' then '\\' :: '`' :: escapeBTChars r else c :: escapeBTChars r

/-- String form of `escapeBTChars`. -/
def escapeBTStr (s : String) : String := ⟨escapeBTChars s.data⟩

/-- Embedding of `create_html_test_page` (lines 308-485): the f-string's
nine interpolations evaluated left to right between the constant pieces
`htmlPart1..10`; any failing subscription/attribute access aborts with the
exception the corresponding Python expression raises. -/
def create_html_test_page (sequences : JSON) : Except PyAbort String := do
  let r25 ← pyGet sequences "25_moves"
  let avg25 ← pyNumFmt (← pyGet r25 "avg_win_rate")
  let beats25 ← pyGet r25 "beats_count"
  let name25 ← pyStrAttr (← pyGet r25 "name")
  let divs25 ← htmlMoves (← pyGet r25 "sequence")
  let r50 ← pyGet sequences "50_moves"
  let avg50 ← pyNumFmt (← pyGet r50 "avg_win_rate")
  let beats50 ← pyGet r50 "beats_count"
  let name50 ← pyStrAttr (← pyGet r50 "name")
  let divs50 ← htmlMoves (← pyGet r50 "sequence")
  .ok (htmlPart1 ++ format1f avg25 ++ htmlPart2 ++ pyStr beats25 ++ htmlPart3
    ++ pyTitle name25 ++ htmlPart4 ++ divs25 ++ htmlPart5 ++ format1f avg50
    ++ htmlPart6 ++ pyStr beats50 ++ htmlPart7 ++ pyTitle name50 ++ htmlPart8
    ++ divs50 ++ htmlPart9
    ++ escapeBTStr (generate_javascript_test_function sequences) ++ htmlPart10)

/-- Embedding of the `manual_instructions` f-string (lines 503-535): its six
interpolations evaluated left to right between the constant pieces
`mdPart1..7`. -/
def manualInstructionsMd (sequences : JSON) : Except PyAbort String := do
  let r25 ← pyGet sequences "25_moves"
  let name25 ← pyStrAttr (← pyGet r25 "name")
  let avg25 ← pyNumFmt (← pyGet r25 "avg_win_rate")
  let seq25 ← mdJoinSeq (← pyGet r25 "sequence")
  let r50 ← pyGet sequences "50_moves"
  let name50 ← pyStrAttr (← pyGet r50 "name")
  let avg50 ← pyNumFmt (← pyGet r50 "avg_win_rate")
  let seq50 ← mdJoinSeq (← pyGet r50 "sequence")
  .ok (mdPart1 ++ pyTitle name25 ++ mdPart2 ++ format1f avg25 ++ mdPart3 ++ seq25
    ++ mdPart4 ++ pyTitle name50 ++ mdPart5 ++ format1f avg50 ++ mdPart6 ++ seq50
    ++ mdPart7)

/-- Trace of running (part of) the generator process: the stdout lines it
printed, the files it wrote in write order, and `none` for a clean exit
(status 0) or the abnormal termination. -/
structure RunTrace where
  prints : List String
  writes : List (String × String)
  abort : Option PyAbort
deriving Repr

/-- The three output file names, in write order (lines 492, 498, 537). -/
def jsFileName : String := "optimal_sequence_test.js"

/-- Name of the HTML artifact. -/
def htmlFileName : String := "optimal_sequence_test.html"

/-- Name of the Markdown artifact. -/
def mdFileName : String := "manual_testing_instructions.md"

/-- Embedding of `generate_visual_test_files` (lines 487-539): generate and
write the JavaScript artifact, then the HTML artifact, then the Markdown
artifact, printing one ✅ line after each write; a failure in building the
HTML or Markdown text aborts there, keeping the files already written. -/
def generate_visual_test_files (sequences : JSON) : RunTrace :=
  let js := generate_javascript_test_function sequences
  let jsPrint := "✅ Generated JavaScript test file: optimal_sequence_test.js"
  match create_html_test_page sequences with
  | .error e => { prints := [jsPrint], writes := [(jsFileName, js)], abort := some e }
  | .ok html =>
    let htmlPrint := "✅ Generated HTML test page: optimal_sequence_test.html"
    match manualInstructionsMd sequences with
    | .error e =>
        { prints := [jsPrint, htmlPrint]
          writes := [(jsFileName, js), (htmlFileName, html)]
          abort := some e }
    | .ok md =>
        { prints := [jsPrint, htmlPrint,
            "✅ Generated manual testing instructions: manual_testing_instructions.md"]
          writes := [(jsFileName, js), (htmlFileName, html), (mdFileName, md)]
          abort := none }

/-- File system visible to the process: named text files. -/
structure FileSystem where
  files : List (String × String)
deriving DecidableEq, Repr

/-- Read a file's contents, if present. -/
def FileSystem.read (fs : FileSystem) (name : String) : Option String :=
  fs.files.lookup name

/-- Write (create or overwrite) one file. -/
def FileSystem.write (fs : FileSystem) (name content : String) : FileSystem :=
  ⟨(name, content) :: fs.files.filter (fun p => p.1 != name)⟩

/-- The input file name (line 30). -/
def inputFileName : String := "best_sequences_quick_ref.json"

/-- Embedding of `load_optimal_sequences` (lines 27-35): open and parse
`best_sequences_quick_ref.json`; on `FileNotFoundError` print the ❌ line
and call `sys.exit(1)`; a present but unparseable file raises
`json.JSONDecodeError`, uncaught. -/
def load_optimal_sequences (fs : FileSystem) : List String × Except PyAbort JSON :=
  match fs.read inputFileName with
  | none =>
      (["❌ Optimal sequences not found. Please run optimal_move_sequences.py first."],
       .error (.exit 1))
  | some txt =>
      match jsonLoads txt with
      | some v => (["✅ Loaded optimal sequences successfully"], .ok v)
      | none => ([], .error (.exc "JSONDecodeError"))

/-- The generator pipeline as `RobotDistinctivenessAnalyzer` runs it: the
constructor (which loads the input and enumerates the combinations) followed
by `generate_visual_test_files`. -/
def runGenerator (fs : FileSystem) : RunTrace :=
  match load_optimal_sequences fs with
  | (ps, .error e) => { prints := ps, writes := [], abort := some e }
  | (ps, .ok v) =>
      let t := generate_visual_test_files v
      { prints := ps ++ t.prints, writes := t.writes, abort := t.abort }

/-- Names bound at the top level of the `visual_sequence_tester` module by
its `class` and `def` statements. -/
def moduleTopLevelNames : List String := ["RobotDistinctivenessAnalyzer", "main"]

/-- Embedding of `main` (lines 542-570): print the two banner lines, then
evaluate `tester = VisualTester()`.  The module binds no global named
`VisualTester` (see `moduleTopLevelNames`; the analyzer class is named
`RobotDistinctivenessAnalyzer`), so the name lookup raises `NameError`: the
process dies with a traceback and exit status 1 before reading the input
file or writing any output file. -/
def visualTesterMain (_fs : FileSystem) : RunTrace :=
  let banner := ["🎮 Visual Test Generator for Optimal Move Sequences", pyRepeat "=" 60]
  if h : "VisualTester" ∈ moduleTopLevelNames then absurd h (by decide)
  else { prints := banner, writes := [], abort := some (.exc "NameError") }

/-- Literal `similar_groups` table of `combination_similarity_analysis.py`. -/
def similarGroupsData : JSON :=
  .arr (.ofList [.obj (.ofList [
    ("group", .str "Ultra-Random Chaos"),
    ("combinations", .arr (.ofList [.str "Random + To Win + Wildcard", .str "Random + Balanced + Wildcard", .str "Random + Not to Lose + Wildcard"])),
    ("similarity", .str "90%"),
    ("reason", .str "Wildcard's 70% randomness completely dominates Random's already random behavior. Strategy becomes irrelevant."),
    ("behavior", .str "Essentially 70% pure random + 30% strategy-influenced random = Very similar chaos")]), .obj (.ofList [
    ("group", .str "Aggressive Counter-Attackers"),
    ("combinations", .arr (.ofList [.str "Frequency + To Win + Berserker", .str "Enhanced + To Win + Berserker", .str "Markov + To Win + Berserker"])),
    ("similarity", .str "75%"),
    ("reason", .str "Berserker's 80% aggressive countering + To Win's aggressive focus create similar behavior regardless of base difficulty"),
    ("behavior", .str "All aggressively counter human's most common moves with high confidence")]), .obj (.ofList [
    ("group", .str "Ultra-Defensive Players"),
    ("combinations", .arr (.ofList [.str "Random + Not to Lose + Guardian", .str "Frequency + Not to Lose + Guardian", .str "Markov + Not to Lose + Guardian"])),
    ("similarity", .str "70%"),
    ("reason", .str "Guardian's defensive nature + Not to Lose strategy both prioritize ties and safe play"),
    ("behavior", .str "All seek ties when losing, play very conservatively, avoid risks")]), .obj (.ofList [
    ("group", .str "Balanced Neutrals"),
    ("combinations", .arr (.ofList [.str "Enhanced + Balanced + Neutral", .str "Markov + Balanced + Neutral", .str "LSTM + Balanced + Neutral"])),
    ("similarity", .str "65%"),
    ("reason", .str "When human has no clear patterns, all these just use their base difficulty logic without modifications"),
    ("behavior", .str "Pure difficulty expression - differences only visible with patterned human play")])])

/-- Literal `distinct_examples` table of `combination_similarity_analysis.py`. -/
def distinctExamplesData : JSON :=
  .arr (.ofList [.obj (.ofList [
    ("combo1", .str "LSTM + To Win + Berserker"),
    ("combo2", .str "Random + Not to Lose + Guardian"),
    ("difference", .str "Maximum intelligence + aggression vs. Unpredictable + defensive"),
    ("behavior1", .str "Ruthlessly exploits patterns with 95% aggression"),
    ("behavior2", .str "Unpredictable but safe, often forces ties")]), .obj (.ofList [
    ("combo1", .str "Enhanced + Balanced + Chameleon"),
    ("combo2", .str "Frequency + To Win + Wildcard"),
    ("difference", .str "Adaptive intelligence vs. Chaotic counter-attacks"),
    ("behavior1", .str "Smart adaptation based on performance tracking"),
    ("behavior2", .str "Simple counters mixed with 70% pure chaos")]), .obj (.ofList [
    ("combo1", .str "Markov + Not to Lose + Mirror"),
    ("combo2", .str "LSTM + To Win + Professor"),
    ("difference", .str "Defensive copying vs. Analytical aggression"),
    ("behavior1", .str "Learns patterns to copy human style defensively"),
    ("behavior2", .str "Deep analysis to find complex patterns and exploit them")]), .obj (.ofList [
    ("combo1", .str "Random + Balanced + Neutral"),
    ("combo2", .str "LSTM + To Win + Berserker"),
    ("difference", .str "Pure randomness vs. Maximum AI sophistication"),
    ("behavior1", .str "Completely random moves, no learning"),
    ("behavior2", .str "Advanced pattern recognition + ruthless exploitation")]), .obj (.ofList [
    ("combo1", .str "Enhanced + To Win + Chameleon"),
    ("combo2", .str "Frequency + Not to Lose + Guardian"),
    ("difference", .str "Adaptive aggression vs. Simple defensiveness"),
    ("behavior1", .str "Changes between aggressive and random based on performance"),
    ("behavior2", .str "Simple pattern counting with strong tie preference")])])

/-- Literal `dominance_patterns` table of `combination_similarity_analysis.py`. -/
def dominancePatternsData : JSON :=
  .arr (.ofList [.obj (.ofList [
    ("dominant_component", .str "Wildcard Personality"),
    ("dominance_level", .str "Extreme (70%)"),
    ("effect", .str "Overrides almost all difficulty and strategy logic"),
    ("examples", .arr (.ofList [.str "Any difficulty + Any strategy + Wildcard ≈ 70% random chaos"])),
    ("exceptions", .str "None - Wildcard dominates everything")]), .obj (.ofList [
    ("dominant_component", .str "LSTM Difficulty"),
    ("dominance_level", .str "High"),
    ("effect", .str "Provides such strong pattern recognition that strategy/personality matter less"),
    ("examples", .arr (.ofList [.str "LSTM + Any strategy + Any personality = Strong AI with personality flavor"])),
    ("exceptions", .str "Wildcard can still override with randomness")]), .obj (.ofList [
    ("dominant_component", .str "Berserker Personality"),
    ("dominance_level", .str "High"),
    ("effect", .str "80% aggressive countering overrides most base AI decisions"),
    ("examples", .arr (.ofList [.str "Any difficulty + Any strategy + Berserker ≈ Aggressive counter-attacker"])),
    ("exceptions", .str "Random difficulty + Berserker still somewhat unpredictable")]), .obj (.ofList [
    ("dominant_component", .str "To Win + Berserker Combination"),
    ("dominance_level", .str "Very High"),
    ("effect", .str "Both components reinforce aggression, creating ultra-aggressive behavior"),
    ("examples", .arr (.ofList [.str "Any difficulty + To Win + Berserker = Maximum aggression"])),
    ("exceptions", .str "Wildcard personality can still add chaos")]), .obj (.ofList [
    ("dominant_component", .str "Random Difficulty"),
    ("dominance_level", .str "Medium"),
    ("effect", .str "Baseline randomness limits how sophisticated other components can be"),
    ("examples", .arr (.ofList [.str "Random + Any strategy + Any personality = Enhanced randomness"])),
    ("exceptions", .str "Strong personalities (Berserker, Guardian, Chameleon) can still show through")])])

/-- Literal `redundancy_analysis` table of `combination_similarity_analysis.py`. -/
def redundancyAnalysisData : JSON :=
  .obj (.ofList [
    ("Total Combinations", .num (.int 105)),
    ("High Redundancy", .obj (.ofList [
    ("count", .num (.int 12)),
    ("percentage", .str "11.4%"),
    ("description", .str "Feel very similar to play against"),
    ("examples", .str "Random + Any Strategy + Wildcard variants")])),
    ("Medium Redundancy", .obj (.ofList [
    ("count", .num (.int 18)),
    ("percentage", .str "17.1%"),
    ("description", .str "Some similarities but distinguishable differences"),
    ("examples", .str "Aggressive counter-attacker variants")])),
    ("Low Redundancy", .obj (.ofList [
    ("count", .num (.int 25)),
    ("percentage", .str "23.8%"),
    ("description", .str "Similar in some aspects but clearly different overall"),
    ("examples", .str "Same difficulty + strategy, different personalities")])),
    ("Unique Behaviors", .obj (.ofList [
    ("count", .num (.int 50)),
    ("percentage", .str "47.6%"),
    ("description", .str "Clearly distinct and memorable robot characters"),
    ("examples", .str "LSTM + To Win + Berserker vs Random + Not to Lose + Guardian")]))])

/-- Literal `recommendations` table of `combination_similarity_analysis.py`. -/
def recommendationsData : JSON :=
  .arr (.ofList [.str "✅ STRENGTHS: Your 3-layer system successfully creates ~75-80 distinct robot behaviors", .str "⚠️ MINOR ISSUE: ~12 combinations with high redundancy (mostly Wildcard variants)", .str "🎯 OPTIMIZATION: Consider reducing Wildcard's randomness from 70% to 50%", .str "🔧 ENHANCEMENT: Add more interaction between Strategy and Personality components", .str "📈 OVERALL: Excellent design with minimal redundancy for 105 combinations"])

/-- Python list indexing `v[0]` (`pattern['examples'][0]`). -/
def pyIndex0 (v : JSON) : Except PyAbort JSON :=
  match v with
  | .arr (.cons x _) => .ok x
  | .arr .nil => .error (.exc "IndexError")
  | _ => .error (.exc "TypeError")

/-- Lean list of a `JItems`. -/
def JItems.toList : JItems → List JSON
  | .nil => []
  | .cons x xs => x :: JItems.toList xs

/-- Python `for x in v` over a loaded value (iteration of non-lists is
outside the model, collapsed to `TypeError`; the reporter only iterates
lists). -/
def pyIterate (v : JSON) : Except PyAbort (List JSON) :=
  match v with
  | .arr xs => .ok xs.toList
  | _ => .error (.exc "TypeError")

/-- Sequence a fallible line producer over a list, concatenating output. -/
def concatMapExc (f : JSON → Except PyAbort (List String)) :
    List JSON → Except PyAbort (List String)
  | [] => .ok []
  | x :: xs =>
      match f x, concatMapExc f xs with
      | .ok a, .ok b => .ok (a ++ b)
      | .error e, _ => .error e
      | _, .error e => .error e

/-- Print block of one `similar_groups` entry (lines 71-78). -/
def printGroupBlock (g : JSON) : Except PyAbort (List String) := do
  let gname ← pyGet g "group"
  let sim ← pyGet g "similarity"
  let combos ← pyIterate (← pyGet g "combinations")
  let reason ← pyGet g "reason"
  let behavior ← pyGet g "behavior"
  .ok ((("📦 " ++ pyStr gname ++ " (Similarity: " ++ pyStr sim ++ ")") ::
        "   Combinations:" :: combos.map (fun c => "   • " ++ pyStr c))
      ++ ["   Why Similar: " ++ pyStr reason, "   Behavior: " ++ pyStr behavior, ""])

/-- Print block of one `distinct_examples` entry with its 1-based index
(lines 128-134). -/
def printExampleBlock (i : Nat) (ex : JSON) : Except PyAbort (List String) := do
  let c1 ← pyGet ex "combo1"
  let c2 ← pyGet ex "combo2"
  let diff ← pyGet ex "difference"
  let b1 ← pyGet ex "behavior1"
  let b2 ← pyGet ex "behavior2"
  .ok [⟨natChars i⟩ ++ ". " ++ pyStr c1,
       "   vs. " ++ pyStr c2,
       "   Difference: " ++ pyStr diff,
       "   Behavior 1: " ++ pyStr b1,
       "   Behavior 2: " ++ pyStr b2, ""]

/-- Indexed traversal for `enumerate(distinct_examples, 1)`. -/
def printExampleBlocks : Nat → List JSON → Except PyAbort (List String)
  | _, [] => .ok []
  | i, x :: xs =>
      match printExampleBlock i x, printExampleBlocks (i + 1) xs with
      | .ok a, .ok b => .ok (a ++ b)
      | .error e, _ => .error e
      | _, .error e => .error e

/-- Print block of one `dominance_patterns` entry (lines 184-190). -/
def printPatternBlock (p : JSON) : Except PyAbort (List String) := do
  let dc ← pyGet p "dominant_component"
  let dl ← pyGet p "dominance_level"
  let eff ← pyGet p "effect"
  let ex0 ← pyIndex0 (← pyGet p "examples")
  let exc ← pyGet p "exceptions"
  .ok ["🎯 " ++ pyStr dc,
       "   Dominance: " ++ pyStr dl,
       "   Effect: " ++ pyStr eff,
       "   Examples: " ++ pyStr ex0,
       "   Exceptions: " ++ pyStr exc, ""]

/-- Print block of one `redundancy_analysis.items()` entry (lines 226-233):
the `Total Combinations` key prints the raw value, every other key is
treated as a sub-dict. -/
def printRedundancyItem (k : String) (v : JSON) : Except PyAbort (List String) :=
  if k = "Total Combinations" then .ok (["📈 " ++ k ++ ": " ++ pyStr v, ""])
  else do
    let c ← pyGet v "count"
    let p ← pyGet v "percentage"
    let d ← pyGet v "description"
    let e ← pyGet v "examples"
    .ok ["   " ++ k ++ ": " ++ pyStr c ++ " combinations (" ++ pyStr p ++ ")",
         "      Description: " ++ pyStr d,
         "      Examples: " ++ pyStr e, ""]

/-- Iterate `printRedundancyItem` over the dict members in insertion
order, as `dict.items()` yields them. -/
def printRedundancyItems : JFields → Except PyAbort (List String)
  | .nil => .ok []
  | .cons k v fs =>
      match printRedundancyItem k v, printRedundancyItems fs with
      | .ok a, .ok b => .ok (a ++ b)
      | .error e, _ => .error e
      | _, .error e => .error e

/-- Embedding of `analyze_combination_similarities`
(`combination_similarity_analysis.py` lines 7-255): the full sequence of
lines printed to standard output, or the abnormal termination if any of the
data accesses failed.  The function takes no arguments and returns `None`;
printing is its only effect. -/
def analyze_combination_similarities : Except PyAbort (List String) := do
  let groups ← pyIterate similarGroupsData
  let groupLines ← concatMapExc printGroupBlock groups
  let examples ← pyIterate distinctExamplesData
  let exampleLines ← printExampleBlocks 1 examples
  let patterns ← pyIterate dominancePatternsData
  let patternLines ← concatMapExc printPatternBlock patterns
  let redundancyLines ←
    match redundancyAnalysisData with
    | .obj fs => printRedundancyItems fs
    | _ => .error (.exc "TypeError")
  let recs ← pyIterate recommendationsData
  .ok (["🔍 ROBOT COMBINATION SIMILARITY ANALYSIS",
        pyRepeat "=" 60,
        "Identifying potentially redundant vs. clearly distinct robot combinations",
        "",
        "⚠️ POTENTIALLY REDUNDANT COMBINATIONS",
        pyRepeat "=" 45,
        "These combinations might feel very similar to play against:",
        ""]
    ++ groupLines
    ++ ["🌟 GUARANTEED DISTINCT COMBINATIONS",
        pyRepeat "=" 40,
        "These combinations will always feel different to play against:",
        ""]
    ++ exampleLines
    ++ ["🎛️ COMPONENT DOMINANCE PATTERNS",
        pyRepeat "=" 35,
        "How different components can dominate the robot's behavior:",
        ""]
    ++ patternLines
    ++ ["📊 REDUNDANCY ASSESSMENT",
        pyRepeat "=" 30,
        "Assessment of 105 robot combinations:",
        ""]
    ++ redundancyLines
    ++ ["💡 DESIGN RECOMMENDATIONS",
        pyRepeat "=" 30]
    ++ recs.map pyStr
    ++ ["",
        "🏆 FINAL VERDICT:",
        "Your robot combination system successfully creates a rich variety of",
        "AI personalities with only minor redundancy. The three-component",
        "approach (Difficulty + Strategy + Personality) produces 75+ genuinely",
        "distinct robot behaviors that players will notice and remember."])

/-- Outcome of one move as the harness's `updateUI` interception captures it
(`data.result`, or its first element when it is an array):
`"human" | "robot" | "tie"`. -/
inductive Outcome where
  | human
  | robot
  | tie
deriving DecidableEq, Repr

/-- Per-combination outcome counters (`let wins = {human: 0, robot: 0,
tie: 0}`, line 115). -/
structure Wins where
  human : Nat
  robot : Nat
  tie : Nat
deriving DecidableEq, Repr

/-- The `wins[result]++` update guarded by `if (result)` (lines 123-125):
a `null` result changes nothing. -/
def Wins.add (w : Wins) : Option Outcome → Wins
  | some .human => { w with human := w.human + 1 }
  | some .robot => { w with robot := w.robot + 1 }
  | some .tie => { w with tie := w.tie + 1 }
  | none => w

/-- The browser page the generated harness runs against: which of the five
global game functions are defined, which `<select>` elements exist, and the
outcome the `updateUI` callback reports for move `j` of combination `i`
(`none` models `data` without a usable `result`).  The model assumes the
page calls `updateUI` exactly once per submitted move — the page contract
the harness's one-shot interception relies on. -/
structure BrowserEnv where
  hasSetDifficulty : Bool
  hasSetStrategy : Bool
  hasSetPersonality : Bool
  hasResetGame : Bool
  hasSubmitMove : Bool
  domDifficulty : Bool
  domStrategy : Bool
  domPersonality : Bool
  outcome : Nat → Nat → Option Outcome

/-- How one harness step ends: normally, with the console lines it logged;
with an uncaught thrown error, which rejects the promise chain of
`startTest` and stops the whole run; or with `location.reload()`, which
replaces the page and every running script, so nothing continues. -/
inductive StepEnd (α : Type) where
  | ok (a : α) (log : List String)
  | thrown (err : String) (log : List String)
  | reload (log : List String)
deriving Repr

/-- Sequencing of harness steps: an exception or a reload short-circuits. -/
def StepEnd.bind {α β : Type} : StepEnd α → (α → StepEnd β) → StepEnd β
  | .ok a l, f =>
      match f a with
      | .ok b l2 => .ok b (l ++ l2)
      | .thrown e l2 => .thrown e (l ++ l2)
      | .reload l2 => .reload (l ++ l2)
  | .thrown e l, _ => .thrown e l
  | .reload l, _ => .reload l

/-- Embedding of `setRobotConfiguration` (lines 143-166): for each of the
three `<select>` elements, if the element exists its value is set and the
global setter is called — calling an undefined global raises an uncaught
`ReferenceError` at that point; if the element is missing, that setter is
skipped silently.  When all three steps pass, the `🔧 Robot configured`
line is logged. -/
def setRobotConfiguration (env : BrowserEnv) (combo : Combo) : StepEnd Unit :=
  if env.domDifficulty && !env.hasSetDifficulty then
    .thrown "ReferenceError: setDifficulty is not defined" []
  else if env.domStrategy && !env.hasSetStrategy then
    .thrown "ReferenceError: setStrategy is not defined" []
  else if env.domPersonality && !env.hasSetPersonality then
    .thrown "ReferenceError: setPersonality is not defined" []
  else
    .ok () ["  🔧 Robot configured: " ++ combo.difficulty ++ " + " ++ combo.strategy
              ++ " + " ++ combo.personality]

/-- Embedding of the harness's `resetGame` (lines 168-178): when the global
`resetGame` is a function it is called and the promise resolves after a
fixed timeout; otherwise the fallback is `location.reload()` — the page
(and with it the harness) is replaced, and the promise never resolves. -/
def harnessResetGame (env : BrowserEnv) : StepEnd Unit :=
  if env.hasResetGame then .ok () [] else .reload []

/-- Embedding of `playMove` (lines 180-209): when the global `submitMove`
is a function, `window.updateUI` is intercepted for one call and the
promise resolves with the captured, normalised `data.result`; when it is
absent, the harness logs `submitMove function not found` to the console's
error stream and resolves `null`. -/
def playMove (env : BrowserEnv) (comboIdx moveIdx : Nat) : StepEnd (Option Outcome) :=
  if env.hasSubmitMove then .ok (env.outcome comboIdx moveIdx) []
  else .ok none ["submitMove function not found"]

/-- The move loop of `testSequenceAgainstCombo` (lines 118-129): log the
`Move j/len` line, play the move, count its outcome, continue. -/
def playMoves (env : BrowserEnv) (comboIdx total : Nat) :
    Nat → List String → Wins → StepEnd Wins
  | _, [], w => .ok w []
  | j, m :: ms, w =>
      StepEnd.bind
        (match playMove env comboIdx j with
         | .ok r l =>
             .ok r (("  Move " ++ (⟨natChars (j + 1)⟩ : String) ++ "/"
               ++ (⟨natChars total⟩ : String) ++ ": Playing " ++ m) :: l)
         | .thrown e l => .thrown e l
         | .reload l => .reload l)
        (fun r => playMoves env comboIdx total (j + 1) ms (w.add r))

/-- Fixed-point rendering of a nonnegative rational with one decimal, as
`Number.prototype.toFixed(1)` renders the win rate in console lines (ties
round away from zero; binary-float subtleties are outside the model and no
claim depends on this text). -/
def qToFixed1 (q : ℚ) : String :=
  let t := (Int.floor (q * 10 + 1 / 2)).toNat
  ⟨natChars (t / 10) ++ '.' :: [digitChar (t % 10)]⟩

/-- Result of one combination test (lines 136-140): the counters, the win
rate `(wins.human / totalMoves) * 100` (a JS float, modelled as an exact
rational) guarded to `0` when no move produced an outcome, and the total. -/
structure ComboResult where
  wins : Wins
  winRate : ℚ
  totalMoves : Nat
deriving DecidableEq, Repr

/-- Embedding of `testSequenceAgainstCombo` (lines 107-141): configure the
robot, reset the game, replay the sequence while counting captured
outcomes, then compute `totalMoves` and `winRate` and log the `Results`
line. -/
def testSequenceAgainstCombo (env : BrowserEnv) (comboIdx : Nat)
    (sequence : List String) (combo : Combo) : StepEnd ComboResult :=
  StepEnd.bind (setRobotConfiguration env combo) fun _ =>
  StepEnd.bind (harnessResetGame env) fun _ =>
  StepEnd.bind (playMoves env comboIdx sequence.length 0 sequence ⟨0, 0, 0⟩) fun w =>
    let totalMoves := w.human + w.robot + w.tie
    let winRate : ℚ := if 0 < totalMoves then ((w.human : ℚ) / (totalMoves : ℚ)) * 100 else 0
    .ok ⟨w, winRate, totalMoves⟩
      ["  Results: " ++ (⟨natChars w.human⟩ : String) ++ "W-"
        ++ (⟨natChars w.robot⟩ : String) ++ "L-" ++ (⟨natChars w.tie⟩ : String)
        ++ "T (" ++ qToFixed1 winRate ++ "% win rate)"]

/-- One record pushed into `this.results` (lines 92-96). -/
structure ResultRecord where
  combo : Combo
  result : ComboResult
  sequence_name : String
deriving DecidableEq, Repr

/-- The combination loop of `startTest` (lines 87-102): strictly
sequential; each iteration logs the `🤖 Testing against` line, tests the
sequence against one combination and pushes the result record.  A thrown
error rejects `startTest`'s promise (nothing catches it) and a reload
destroys the run, so in either case no further combination is visited. -/
def comboLoop (env : BrowserEnv) (sequence : List String) (seqName : String)
    (total : Nat) : Nat → List Combo → StepEnd (List ResultRecord)
  | _, [] => .ok [] []
  | i, c :: cs =>
      StepEnd.bind
        (match testSequenceAgainstCombo env i sequence c with
         | .ok r l =>
             .ok r (("\n🤖 Testing against: " ++ c.name ++ " ("
               ++ (⟨natChars (i + 1)⟩ : String) ++ "/" ++ (⟨natChars total⟩ : String) ++ ")") :: l)
         | .thrown e l =>
             .thrown e (("\n🤖 Testing against: " ++ c.name ++ " ("
               ++ (⟨natChars (i + 1)⟩ : String) ++ "/" ++ (⟨natChars total⟩ : String) ++ ")") :: l)
         | .reload l =>
             .reload (("\n🤖 Testing against: " ++ c.name ++ " ("
               ++ (⟨natChars (i + 1)⟩ : String) ++ "/" ++ (⟨natChars total⟩ : String) ++ ")") :: l))
        (fun r => StepEnd.bind (comboLoop env sequence seqName total (i + 1) cs)
          (fun rs => .ok ({ combo := c, result := r, sequence_name := seqName } :: rs) []))

/-- Embedding of the loop phase of `startTest(gameLength)` (lines 73-105)
for an already-looked-up optimal sequence: iterate all 105 robot
combinations in order (the `displayFinalResults` reporting that follows
only reads the returned list and the claims do not concern it). -/
def startTestLoop (env : BrowserEnv) (sequence : List String) (seqName : String) :
    StepEnd (List ResultRecord) :=
  comboLoop env sequence seqName robot_combinations.length 0 robot_combinations

/-- Heads that do not extend a number token: a serialized number followed
by `rest` is re-read exactly when `rest` does not begin with a digit or a
dot (in both artifacts the blob is followed by `;`). -/
def numSafeB : List Char → Bool
  | [] => true
  | c :: _ => !c.isDigit && c != '.'

/-- Recover the sequences document from the generated JS artifact: drop the
constant prelude, which ends with `this.sequences = `, then parse one JSON
value (the parser stops at the `;` after the blob). -/
def extractSequencesJS (js : String) : Option JSON :=
  match parseVal js.data.length (js.data.drop jsPart1.data.length) with
  | some (v, _) => some v
  | none => none

/-- Inverse of `escapeBTChars`. -/
def unescapeBTChars : List Char → List Char
  | [] => []
  | '\\' :: '`' :: r => '`' :: unescapeBTChars r
  | c :: r => c :: unescapeBTChars r

/-- Characters strictly between the first and the last occurrence of `c`. -/
def betweenOuter (c : Char) (l : List Char) : List Char :=
  ((((l.dropWhile (fun x => x != c)).drop 1).reverse.dropWhile
      (fun x => x != c)).drop 1).reverse

/-- Recover the sequences document from the generated HTML artifact: the
embedded harness source is the template literal between the page's first
and last backtick (the page contains no other unescaped backtick);
unescape the backticks and read the result as the JS artifact. -/
def extractSequencesHTML (html : String) : Option JSON :=
  extractSequencesJS ⟨unescapeBTChars (betweenOuter '`' html.data)⟩

/-- Plain text character: printable ASCII that `json.dumps` serializes
without escaping, excluding the backtick (which the HTML embedding layer
escapes and whose absence keeps the embedded template literal
unambiguous). -/
def plainChar (c : Char) : Bool :=
  32 ≤ c.toNat && c.toNat ≤ 126 && c != '"' && c != '\\' && c != '`'

/-- A string of plain characters. -/
def plainStr (s : String) : Bool := s.data.all plainChar

/-- Well-formed model number: a float's decimal form has at least one
fraction digit (Python float reprs always do). -/
def wfNum : JNum → Bool
  | .int _ => true
  | .dec _ e => decide (1 ≤ e)

mutual

/-- Well-formed document: every string plain, every float well formed. -/
def wfVal : JSON → Bool
  | .null => true
  | .bool _ => true
  | .num n => wfNum n
  | .str s => plainStr s
  | .arr xs => wfItems xs
  | .obj fs => wfFields fs
termination_by structural v => v

/-- All items well formed. -/
def wfItems : JItems → Bool
  | .nil => true
  | .cons x xs => wfVal x && wfItems xs
termination_by structural xs => xs

/-- All member keys plain and values well formed. -/
def wfFields : JFields → Bool
  | .nil => true
  | .cons k v fs => plainStr k && wfVal v && wfFields fs
termination_by structural fs => fs

end

mutual

/-- Fuel needed by `parseVal` to re-read a serialized value. -/
def jsizeV : JSON → Nat
  | .null => 1
  | .bool _ => 1
  | .num _ => 1
  | .str _ => 1
  | .arr xs => 1 + jsizeItems xs
  | .obj fs => 1 + jsizeFields fs
termination_by structural v => v

/-- Fuel needed by `parseItems` for a serialized item list. -/
def jsizeItems : JItems → Nat
  | .nil => 0
  | .cons x xs => 1 + jsizeV x + jsizeItems xs
termination_by structural xs => xs

/-- Fuel needed by `parseFields` for a serialized member list. -/
def jsizeFields : JFields → Nat
  | .nil => 0
  | .cons _ v fs => 1 + jsizeV v + jsizeFields fs
termination_by structural fs => fs

end

/-- No backtick among the characters. -/
def noBT (l : List Char) : Bool := l.all (fun c => c != '`')

/-- Display name as claim C10 words it: the title-cased difficulty, the
strategy with underscores replaced by spaces and title-cased, and the
title-cased personality, joined by single spaces.  Written from the
claim's words, to be compared with the `name` the code generates. -/
def displayNameC10 (difficulty strategy personality : String) : String :=
  pyJoin " " [pyTitle difficulty, pyTitle (replaceUnderscore strategy), pyTitle personality]

/-- Apply a run's writes to the file system, in order. -/
def applyWrites (fs : FileSystem) : List (String × String) → FileSystem
  | [] => fs
  | (n, c) :: ws => applyWrites (fs.write n c) ws

/-- A page exposing all five globals and all three selects, every captured
outcome a human win. -/
def fullEnv : BrowserEnv :=
  ⟨true, true, true, true, true, true, true, true, fun _ _ => some .human⟩

/-- The page with the global `resetGame` missing. -/
def envNoReset : BrowserEnv := { fullEnv with hasResetGame := false }

/-- The page with the global `submitMove` missing. -/
def envNoSubmit : BrowserEnv := { fullEnv with hasSubmitMove := false }

/-- The page with the global `setDifficulty` missing. -/
def envNoSetDifficulty : BrowserEnv := { fullEnv with hasSetDifficulty := false }

/-- The concrete `25_moves` record of claim C4's example scenario. -/
def c4Record : JSON :=
  .obj (.ofList [("sequence", .arr (.ofList [.str "paper", .str "stone", .str "scissor"])),
    ("name", .str "demo"), ("avg_win_rate", .num (.dec 425 1)), ("beats_count", .num (.int 60))])

/-- A complete concrete input document whose two records are C4's record. -/
def c4Input : JSON := .obj (.ofList [("25_moves", c4Record), ("50_moves", c4Record)])

/-- The concrete input file text: the serialization of `c4Input`. -/
def c4FileText : String := jsonDumps c4Input

/-- A file system holding exactly the concrete input file. -/
def c4FS : FileSystem := ⟨[(inputFileName, c4FileText)]⟩

/-- The string `s` contains `line` as a complete line with a line break on
both sides. -/
def containsLine (s line : String) : Prop :=
  ∃ a b : String, s = a ++ "\n" ++ line ++ "\n" ++ b

theorem takeWhile_append_all {α : Type} {p : α → Bool} {l : List α} (b : α) (t : List α)
    (h : ∀ a ∈ l, p a = true) (hb : p b = false) :
    (l ++ b :: t).takeWhile p = l := by
  induction l with
  | nil => simp [List.takeWhile_cons, hb]
  | cons x xs ih =>
      have hx := h x (by simp)
      simp only [List.cons_append, List.takeWhile_cons, hx, if_true]
      simp [ih (fun a ha => h a (by simp [ha]))]

theorem dropWhile_append_all {α : Type} {p : α → Bool} {l : List α} (b : α) (t : List α)
    (h : ∀ a ∈ l, p a = true) (hb : p b = false) :
    (l ++ b :: t).dropWhile p = b :: t := by
  induction l with
  | nil => simp [List.dropWhile_cons, hb]
  | cons x xs ih =>
      have hx := h x (by simp)
      simp only [List.cons_append, List.dropWhile_cons, hx, if_true]
      exact ih (fun a ha => h a (by simp [ha]))

theorem takeWhile_all {α : Type} {p : α → Bool} {l : List α}
    (h : ∀ a ∈ l, p a = true) : l.takeWhile p = l := by
  induction l with
  | nil => rfl
  | cons x xs ih =>
      have hx := h x (by simp)
      simp only [List.takeWhile_cons, hx, if_true]
      simp [ih (fun a ha => h a (by simp [ha]))]

theorem dropWhile_all {α : Type} {p : α → Bool} {l : List α}
    (h : ∀ a ∈ l, p a = true) : l.dropWhile p = [] := by
  induction l with
  | nil => rfl
  | cons x xs ih =>
      have hx := h x (by simp)
      simp only [List.dropWhile_cons, hx, if_true]
      exact ih (fun a ha => h a (by simp [ha]))

theorem skipWs_cons_not {c : Char} (l : List Char) (h : wsChar c = false) :
    skipWs (c :: l) = c :: l := by
  simp [skipWs, List.dropWhile_cons, h]

theorem skipWs_append_ws {ws : List Char} (l : List Char)
    (h : ∀ c ∈ ws, wsChar c = true) : skipWs (ws ++ l) = skipWs l := by
  induction ws with
  | nil => rfl
  | cons x xs ih =>
      have hx := h x (by simp)
      simp only [List.cons_append, skipWs, List.dropWhile_cons, hx, if_true]
      exact ih (fun c hc => h c (by simp [hc]))

theorem indentChars_ws (lvl : Nat) : ∀ c ∈ indentChars lvl, wsChar c = true := by
  intro c hc
  have : c = ' ' := List.eq_of_mem_replicate hc
  simp [this, wsChar]

theorem skipWs_indent (lvl : Nat) (l : List Char) :
    skipWs (indentChars lvl ++ l) = skipWs l :=
  skipWs_append_ws l (indentChars_ws lvl)

theorem skipWs_nl (l : List Char) : skipWs ('\n' :: l) = skipWs l := by
  have h : wsChar '\n' = true := by decide
  simp [skipWs, List.dropWhile_cons, h]

theorem plainChar_ne_quote {c : Char} (h : plainChar c = true) : (c != '"') = true := by
  simp only [plainChar, Bool.and_eq_true] at h
  simpa using h.1.1.2

theorem escJsonChar_plain {c : Char} (h : plainChar c = true) : escJsonChar c = [c] := by
  simp only [plainChar, Bool.and_eq_true, bne_iff_ne, ne_eq, decide_eq_true_eq] at h
  obtain ⟨⟨⟨h1, hq⟩, hbs⟩, hb⟩ := h
  have hn : c ≠ '\n' := by rintro rfl; exact absurd h1.1 (by decide)
  have ht : c ≠ '\t' := by rintro rfl; exact absurd h1.1 (by decide)
  have hr : c ≠ '\r' := by rintro rfl; exact absurd h1.1 (by decide)
  simp [escJsonChar, hq, hbs, hn, ht, hr]

theorem escChars_plain_list {l : List Char} (h : ∀ c ∈ l, plainChar c = true) :
    l.flatMap escJsonChar = l := by
  induction l with
  | nil => rfl
  | cons x xs ih =>
      simp only [List.flatMap_cons, escJsonChar_plain (h x (by simp))]
      simp [ih (fun c hc => h c (by simp [hc]))]

theorem escStrChars_plain {s : String} (h : plainStr s = true) : escStrChars s = s.data :=
  escChars_plain_list (by simpa [plainStr, List.all_eq_true] using h)

theorem parseStrTok_round {s : String} (rest : List Char) (h : plainStr s = true) :
    parseStrTok (s.data ++ '"' :: rest) = some (s, rest) := by
  have hall : ∀ a ∈ s.data, (a != '"') = true := fun a ha =>
    plainChar_ne_quote ((List.all_eq_true.mp h) a ha)
  have hq : (('"' : Char) != '"') = false := by decide
  unfold parseStrTok
  rw [dropWhile_append_all _ _ hall hq, takeWhile_append_all _ _ hall hq]
  rfl

theorem natDigitsAux_eq : ∀ fuel n, n ≤ fuel → natDigitsAux fuel n = Nat.digits 10 n := by
  intro fuel
  induction fuel with
  | zero =>
      intro n h
      interval_cases n
      simp [natDigitsAux]
  | succ f ih =>
      intro n h
      by_cases h0 : n = 0
      · simp [natDigitsAux, h0]
      · have hpos : 0 < n := Nat.pos_of_ne_zero h0
        have hdiv : n / 10 ≤ f := by
          have hlt : n / 10 < n := Nat.div_lt_self hpos (by norm_num : (1 : Nat) < 10)
          omega
        have hdef := Nat.digits_def' (b := 10) (by norm_num) hpos
        rw [natDigitsAux, if_neg h0, ih (n / 10) hdiv, hdef]

theorem digitChar_isDigit (d : Nat) : (digitChar d).isDigit = true := by
  unfold digitChar
  split <;> decide

theorem digitVal_digitChar {d : Nat} (h : d < 10) : digitVal (digitChar d) = d := by
  interval_cases d <;> decide

theorem natChars_digits (n : Nat) : ∀ c ∈ natChars n, c.isDigit = true := by
  unfold natChars
  split
  · intro c hc
    simp only [List.mem_singleton] at hc
    subst hc
    decide
  · intro c hc
    simp only [List.mem_reverse, List.mem_map] at hc
    obtain ⟨d, _, rfl⟩ := hc
    exact digitChar_isDigit d

theorem natChars_ne_nil (n : Nat) : natChars n ≠ [] := by
  unfold natChars
  split
  · simp
  · rename_i h0
    have : Nat.digits 10 n ≠ [] := Nat.digits_ne_nil_iff_ne_zero.mpr h0
    simp [natDigitsLSB, natDigitsAux_eq n n le_rfl, this]

theorem foldl_digit (l : List Nat) (h : ∀ d ∈ l, d < 10) : ∀ a : Nat,
    (l.map digitChar).foldl (fun a c => 10 * a + digitVal c) a
      = l.foldl (fun a d => 10 * a + d) a := by
  induction l with
  | nil => intro a; rfl
  | cons x xs ih =>
      intro a
      simp only [List.map_cons, List.foldl_cons, digitVal_digitChar (h x (by simp))]
      exact ih (fun d hd => h d (by simp [hd])) _

theorem foldr_ofDigits (l : List Nat) :
    l.foldr (fun d a => 10 * a + d) 0 = Nat.ofDigits 10 l := by
  induction l with
  | nil => simp [Nat.ofDigits]
  | cons x xs ih =>
      simp only [List.foldr_cons, ih, Nat.ofDigits_cons]
      ring

theorem chToNat_natChars (n : Nat) : chToNat (natChars n) = n := by
  unfold natChars
  split
  · rename_i h0
    subst h0
    decide
  · have hd : natDigitsLSB n = Nat.digits 10 n := natDigitsAux_eq n n le_rfl
    rw [hd, ← List.map_reverse]
    unfold chToNat
    rw [foldl_digit _ (fun d hd => by
      rw [List.mem_reverse] at hd
      exact Nat.digits_lt_base (by norm_num) hd)]
    rw [List.foldl_reverse, foldr_ofDigits, Nat.ofDigits_digits]

theorem natChars_length_le {n e : Nat} (hn : n < 10 ^ e) (he : 1 ≤ e) :
    (natChars n).length ≤ e := by
  unfold natChars
  split
  · simpa using he
  · rename_i h0
    rw [natDigitsLSB, natDigitsAux_eq n n le_rfl]
    simp only [List.length_reverse, List.length_map]
    by_contra hlt
    push_neg at hlt
    have h1 : 10 ^ (Nat.digits 10 n).length ≤ 10 * n :=
      Nat.base_pow_length_digits_le 10 n (by norm_num) h0
    have h2 : 10 ^ (e + 1) ≤ 10 ^ (Nat.digits 10 n).length :=
      Nat.pow_le_pow_right (by norm_num) hlt
    have h3 : 10 * 10 ^ e ≤ 10 * n := by
      calc 10 * 10 ^ e = 10 ^ (e + 1) := by ring
      _ ≤ 10 ^ (Nat.digits 10 n).length := h2
      _ ≤ 10 * n := h1
    omega

theorem chToNat_replicate_zero (k : Nat) : ∀ l : List Char,
    chToNat (List.replicate k '0' ++ l) = chToNat l := by
  induction k with
  | zero => intro l; rfl
  | succ m ih =>
      intro l
      simpa [List.replicate_succ, chToNat, List.foldl_cons, digitVal] using ih l

theorem chToNat_padZeros (e : Nat) (l : List Char) : chToNat (padZeros e l) = chToNat l :=
  chToNat_replicate_zero _ l

theorem padZeros_length {e : Nat} {l : List Char} (h : l.length ≤ e) :
    (padZeros e l).length = e := by
  simp [padZeros]
  omega

theorem padZeros_digits {e : Nat} {l : List Char} (h : ∀ c ∈ l, c.isDigit = true) :
    ∀ c ∈ padZeros e l, c.isDigit = true := by
  intro c hc
  rcases List.mem_append.mp hc with hc | hc
  · have : c = '0' := List.eq_of_mem_replicate hc
    subst this
    decide
  · exact h c hc

theorem numSafeB_not_digit {c : Char} {r : List Char} (h : numSafeB (c :: r) = true) :
    c.isDigit = false ∧ c ≠ '.' := by
  simp only [numSafeB, Bool.and_eq_true, Bool.not_eq_true', bne_iff_ne, ne_eq] at h
  exact ⟨h.1, h.2⟩

theorem isDigit_ne_dash {c : Char} (h : c.isDigit = true) : c ≠ '-' := by
  rintro rfl
  exact absurd h (by decide)

theorem parseNumCore_nat (a : Nat) (rest : List Char) (hrest : numSafeB rest = true) :
    parseNumCore (natChars a ++ rest) = some (.num (.int a), rest) := by
  have hdig := natChars_digits a
  have hne := natChars_ne_nil a
  unfold parseNumCore
  cases rest with
  | nil =>
      rw [List.append_nil, takeWhile_all hdig, dropWhile_all hdig]
      simp [List.isEmpty_iff, hne, chToNat_natChars]
  | cons c r2 =>
      obtain ⟨hcd, hcdot⟩ := numSafeB_not_digit hrest
      rw [takeWhile_append_all _ _ hdig hcd, dropWhile_append_all _ _ hdig hcd]
      simp [List.isEmpty_iff, hne, chToNat_natChars, hcdot]

theorem parseNumCore_dec (ip fp e : Nat) (rest : List Char) (he : 1 ≤ e)
    (hfp : fp < 10 ^ e) (hrest : numSafeB rest = true) :
    parseNumCore (natChars ip ++ '.' :: (padZeros e (natChars fp) ++ rest))
      = some (.num (.dec (ip * 10 ^ e + fp) e), rest) := by
  have hdig := natChars_digits ip
  have hne := natChars_ne_nil ip
  have hdot : ('.' : Char).isDigit = false := by decide
  have hfdig : ∀ c ∈ padZeros e (natChars fp), c.isDigit = true :=
    padZeros_digits (natChars_digits fp)
  have hflen : (padZeros e (natChars fp)).length = e :=
    padZeros_length (natChars_length_le hfp he)
  have hfne : padZeros e (natChars fp) ≠ [] := by
    intro h
    rw [h] at hflen
    simp at hflen
    omega
  unfold parseNumCore
  rw [takeWhile_append_all _ _ hdig hdot, dropWhile_append_all _ _ hdig hdot]
  simp only [List.isEmpty_iff, hne, if_neg]
  cases rest with
  | nil =>
      rw [List.append_nil, takeWhile_all hfdig, dropWhile_all hfdig]
      simp [List.isEmpty_iff, hne, hfne, chToNat_natChars, chToNat_padZeros, hflen]
  | cons c r2 =>
      obtain ⟨hcd, _⟩ := numSafeB_not_digit hrest
      rw [takeWhile_append_all _ _ hfdig hcd, dropWhile_append_all _ _ hfdig hcd]
      simp [List.isEmpty_iff, hne, hfne, chToNat_natChars, chToNat_padZeros, hflen]

theorem parseNumTok_round (n : JNum) (rest : List Char) (hwf : wfNum n = true)
    (hrest : numSafeB rest = true) :
    parseNumTok (numChars n ++ rest) = some (.num n, rest) := by
  cases n with
  | int i =>
      show parseNumTok (intChars i ++ rest) = _
      unfold intChars
      by_cases hi : i < 0
      · rw [if_pos hi]
        unfold parseNumTok
        simp only [List.cons_append]
        rw [if_pos trivial, parseNumCore_nat _ _ hrest]
        simp only [Option.map, negNumRes]
        have h : -(i.natAbs : Int) = i := by omega
        rw [h]
      · rw [if_neg hi]
        obtain ⟨d, ds, hd⟩ : ∃ d ds, natChars i.natAbs = d :: ds := by
          cases h : natChars i.natAbs with
          | nil => exact absurd h (natChars_ne_nil _)
          | cons d ds => exact ⟨d, ds, rfl⟩
        have hdd : d.isDigit = true := natChars_digits i.natAbs d (by rw [hd]; simp)
        unfold parseNumTok
        rw [hd]
        simp only [List.cons_append]
        rw [if_neg (isDigit_ne_dash hdd), ← List.cons_append, ← hd,
          parseNumCore_nat _ _ hrest]
        have h : (i.natAbs : Int) = i := by omega
        rw [h]
  | dec m e =>
      have he : 1 ≤ e := by simpa [wfNum] using hwf
      have hfp : m.natAbs % 10 ^ e < 10 ^ e := Nat.mod_lt _ (Nat.pos_pow_of_pos e (by norm_num))
      have hsplit : m.natAbs / 10 ^ e * 10 ^ e + m.natAbs % 10 ^ e = m.natAbs :=
        Nat.div_add_mod' _ _
      have hx : ((m.natAbs / 10 ^ e : Nat) : Int) * 10 ^ e + ((m.natAbs % 10 ^ e : Nat) : Int)
          = (m.natAbs : Int) := by exact_mod_cast hsplit
      show parseNumTok (((if m < 0 then ['-'] else []) ++ natChars (m.natAbs / 10 ^ e)
        ++ '.' :: padZeros e (natChars (m.natAbs % 10 ^ e))) ++ rest) = _
      by_cases hm : m < 0
      · rw [if_pos hm]
        unfold parseNumTok
        simp only [List.cons_append, List.append_assoc, List.nil_append]
        rw [if_pos trivial, parseNumCore_dec _ _ _ _ he hfp hrest]
        simp only [Option.map, negNumRes]
        rw [hx]
        have h : -(m.natAbs : Int) = m := by omega
        rw [h]
      · rw [if_neg hm]
        obtain ⟨d, ds, hd⟩ : ∃ d ds, natChars (m.natAbs / 10 ^ e) = d :: ds := by
          cases h : natChars (m.natAbs / 10 ^ e) with
          | nil => exact absurd h (natChars_ne_nil _)
          | cons d ds => exact ⟨d, ds, rfl⟩
        have hdd : d.isDigit = true := natChars_digits _ d (by rw [hd]; simp)
        unfold parseNumTok
        simp only [List.nil_append, List.append_assoc, List.cons_append, hd]
        rw [if_neg (isDigit_ne_dash hdd), ← List.cons_append, ← hd]
        have hc := parseNumCore_dec (m.natAbs / 10 ^ e) (m.natAbs % 10 ^ e) e rest he hfp hrest
        simp only [List.append_assoc, List.cons_append] at hc
        rw [hc, hx]
        have h : (m.natAbs : Int) = m := by omega
        rw [h]

theorem isDigit_not_ws {c : Char} (h : c.isDigit = true) : wsChar c = false := by
  by_contra hw
  rw [Bool.not_eq_false] at hw
  simp only [wsChar, Bool.or_eq_true, decide_eq_true_eq] at hw
  rcases hw with ((rfl | rfl) | rfl) | rfl <;> exact absurd h (by decide)

theorem isDigit_ne {c x : Char} (h : c.isDigit = true) (hx : x.isDigit = false) : c ≠ x := by
  rintro rfl
  rw [h] at hx
  cases hx

theorem parseVal_ws (fuel : Nat) (ws l : List Char) (h : ∀ c ∈ ws, wsChar c = true) :
    parseVal fuel (ws ++ l) = parseVal fuel l := by
  cases fuel with
  | zero => rfl
  | succ f => rw [parseVal, parseVal, skipWs_append_ws _ h]

theorem jsizeV_pos (v : JSON) : 1 ≤ jsizeV v := by
  cases v <;> simp [jsizeV]

theorem numChars_head (n : JNum) :
    ∃ c r, numChars n = c :: r ∧ (c = '-' ∨ c.isDigit = true) := by
  cases n with
  | int i =>
      show ∃ c r, intChars i = c :: r ∧ _
      unfold intChars
      by_cases hi : i < 0
      · rw [if_pos hi]
        exact ⟨'-', _, rfl, Or.inl rfl⟩
      · rw [if_neg hi]
        obtain ⟨d, ds, hd⟩ : ∃ d ds, natChars i.natAbs = d :: ds := by
          cases h : natChars i.natAbs with
          | nil => exact absurd h (natChars_ne_nil _)
          | cons d ds => exact ⟨d, ds, rfl⟩
        exact ⟨d, ds, hd, Or.inr (natChars_digits _ d (by rw [hd]; simp))⟩
  | dec m e =>
      show ∃ c r, (if m < 0 then ['-'] else []) ++ natChars (m.natAbs / 10 ^ e)
        ++ '.' :: padZeros e (natChars (m.natAbs % 10 ^ e)) = c :: r ∧ _
      by_cases hm : m < 0
      · rw [if_pos hm]
        exact ⟨'-', _, rfl, Or.inl rfl⟩
      · rw [if_neg hm]
        obtain ⟨d, ds, hd⟩ : ∃ d ds, natChars (m.natAbs / 10 ^ e) = d :: ds := by
          cases h : natChars (m.natAbs / 10 ^ e) with
          | nil => exact absurd h (natChars_ne_nil _)
          | cons d ds => exact ⟨d, ds, rfl⟩
        rw [List.nil_append, hd]
        exact ⟨d, _, rfl, Or.inr (natChars_digits _ d (by rw [hd]; simp))⟩

theorem dumpVal_head (v : JSON) (lvl : Nat) :
    ∃ c r, dumpVal v lvl = c :: r ∧ wsChar c = false ∧ c ≠ ']' ∧ c ≠ '\x7d' := by
  cases v with
  | null => refine ⟨'n', _, rfl, ?_, ?_, ?_⟩ <;> decide
  | bool b =>
      cases b with
      | true => refine ⟨'t', _, rfl, ?_, ?_, ?_⟩ <;> decide
      | false => refine ⟨'f', _, rfl, ?_, ?_, ?_⟩ <;> decide
  | str s => refine ⟨'"', _, rfl, ?_, ?_, ?_⟩ <;> decide
  | arr xs =>
      cases xs with
      | nil => refine ⟨'[', _, rfl, ?_, ?_, ?_⟩ <;> decide
      | cons x xs => refine ⟨'[', _, rfl, ?_, ?_, ?_⟩ <;> decide
  | obj fs =>
      cases fs with
      | nil => refine ⟨'\x7b', _, rfl, ?_, ?_, ?_⟩ <;> decide
      | cons k v fs => refine ⟨'\x7b', _, rfl, ?_, ?_, ?_⟩ <;> decide
  | num n =>
      have hnum : ∃ c r, numChars n = c :: r ∧ wsChar c = false ∧ c ≠ ']' ∧ c ≠ '\x7d' := by
        cases n with
        | int i =>
            show ∃ c r, intChars i = c :: r ∧ _
            unfold intChars
            by_cases hi : i < 0
            · rw [if_pos hi]
              exact ⟨'-', _, rfl, by decide, by decide, by decide⟩
            · rw [if_neg hi]
              obtain ⟨d, ds, hd⟩ : ∃ d ds, natChars i.natAbs = d :: ds := by
                cases h : natChars i.natAbs with
                | nil => exact absurd h (natChars_ne_nil _)
                | cons d ds => exact ⟨d, ds, rfl⟩
              have hdd : d.isDigit = true := natChars_digits _ d (by rw [hd]; simp)
              exact ⟨d, ds, hd, isDigit_not_ws hdd, isDigit_ne hdd (by decide),
                isDigit_ne hdd (by decide)⟩
        | dec m e =>
            show ∃ c r, (if m < 0 then ['-'] else []) ++ natChars (m.natAbs / 10 ^ e)
              ++ '.' :: padZeros e (natChars (m.natAbs % 10 ^ e)) = c :: r ∧ _
            by_cases hm : m < 0
            · rw [if_pos hm]
              exact ⟨'-', _, rfl, by decide, by decide, by decide⟩
            · rw [if_neg hm]
              obtain ⟨d, ds, hd⟩ : ∃ d ds, natChars (m.natAbs / 10 ^ e) = d :: ds := by
                cases h : natChars (m.natAbs / 10 ^ e) with
                | nil => exact absurd h (natChars_ne_nil _)
                | cons d ds => exact ⟨d, ds, rfl⟩
              have hdd : d.isDigit = true := natChars_digits _ d (by rw [hd]; simp)
              rw [List.nil_append, hd]
              exact ⟨d, _, rfl, isDigit_not_ws hdd, isDigit_ne hdd (by decide),
                isDigit_ne hdd (by decide)⟩
      exact hnum

theorem numSafeB_cons {c : Char} (l : List Char) (h1 : c.isDigit = false) (h2 : c ≠ '.') :
    numSafeB (c :: l) = true := by
  simp [numSafeB, h1, h2]

theorem nl_indent_ws (lvl : Nat) : ∀ c ∈ '\n' :: indentChars lvl, wsChar c = true := by
  intro c hc
  rcases List.mem_cons.mp hc with rfl | hc
  · decide
  · exact indentChars_ws lvl c hc

theorem parse_round_all : ∀ fuel : Nat,
    (∀ v lvl rest, wfVal v = true → jsizeV v ≤ fuel → numSafeB rest = true →
      parseVal fuel (dumpVal v lvl ++ rest) = some (v, rest))
  ∧ (∀ x xs lvl lvl2 pad rest, wfVal x = true → wfItems xs = true →
      (∀ c ∈ pad, wsChar c = true) → jsizeItems (.cons x xs) ≤ fuel →
      parseItems fuel (pad ++ (dumpVal x lvl ++ (dumpItemsRest xs lvl
        ++ '\n' :: (indentChars lvl2 ++ ']' :: rest)))) = some (.cons x xs, rest))
  ∧ (∀ k v fs lvl lvl2 pad rest, plainStr k = true → wfVal v = true → wfFields fs = true →
      (∀ c ∈ pad, wsChar c = true) → jsizeFields (.cons k v fs) ≤ fuel →
      parseFields fuel (pad ++ ('"' :: (escStrChars k ++ '"' :: ':' :: ' ' :: dumpVal v lvl)
        ++ (dumpFieldsRest fs lvl ++ '\n' :: (indentChars lvl2 ++ '\x7d' :: rest))))
        = some (.cons k v fs, rest)) := by
  intro fuel
  induction fuel with
  | zero =>
      refine ⟨?_, ?_, ?_⟩
      · intro v lvl rest _ hsz _
        have := jsizeV_pos v
        omega
      · intro x xs lvl lvl2 pad rest _ _ _ hsz
        simp only [jsizeItems] at hsz
        omega
      · intro k v fs lvl lvl2 pad rest _ _ _ _ hsz
        simp only [jsizeFields] at hsz
        omega
  | succ f ih =>
      obtain ⟨ihV, ihI, ihF⟩ := ih
      refine ⟨?_, ?_, ?_⟩
      · intro v lvl rest hwf hsz hrest
        cases v with
        | null =>
            simp only [dumpVal, List.cons_append, List.nil_append]
            have h1 : skipWs ('n' :: ('u' :: 'l' :: 'l' :: rest))
                = 'n' :: ('u' :: 'l' :: 'l' :: rest) := skipWs_cons_not _ (by decide)
            simp [parseVal, h1, expectChars]
        | bool b =>
            cases b with
            | true =>
                simp only [dumpVal, List.cons_append, List.nil_append]
                have h1 : skipWs ('t' :: ('r' :: 'u' :: 'e' :: rest))
                    = 't' :: ('r' :: 'u' :: 'e' :: rest) := skipWs_cons_not _ (by decide)
                simp [parseVal, h1, expectChars]
            | false =>
                simp only [dumpVal, List.cons_append, List.nil_append]
                have h1 : skipWs ('f' :: ('a' :: 'l' :: 's' :: 'e' :: rest))
                    = 'f' :: ('a' :: 'l' :: 's' :: 'e' :: rest) := skipWs_cons_not _ (by decide)
                simp [parseVal, h1, expectChars]
        | str s =>
            have hpl : plainStr s = true := by simpa [wfVal] using hwf
            simp only [dumpVal, List.cons_append, List.append_assoc, List.singleton_append, List.nil_append]
            rw [escStrChars_plain hpl]
            have h1 : skipWs ('"' :: (s.data ++ '"' :: rest))
                = '"' :: (s.data ++ '"' :: rest) := skipWs_cons_not _ (by decide)
            simp only [parseVal, h1]
            simp [parseStrTok_round rest hpl]
        | num n =>
            have hwfn : wfNum n = true := by simpa [wfVal] using hwf
            obtain ⟨c, r, hc, hcls⟩ := numChars_head n
            have hne : c ≠ 'n' ∧ c ≠ 't' ∧ c ≠ 'f' ∧ c ≠ '"' ∧ c ≠ '[' ∧ c ≠ '\x7b' := by
              rcases hcls with rfl | hd
              · exact ⟨by decide, by decide, by decide, by decide, by decide, by decide⟩
              · exact ⟨isDigit_ne hd (by decide), isDigit_ne hd (by decide),
                  isDigit_ne hd (by decide), isDigit_ne hd (by decide),
                  isDigit_ne hd (by decide), isDigit_ne hd (by decide)⟩
            have hws : wsChar c = false := by
              rcases hcls with rfl | hd
              · decide
              · exact isDigit_not_ws hd
            show parseVal (f + 1) (numChars n ++ rest) = _
            rw [hc]
            have h1 : skipWs ((c :: r) ++ rest) = c :: (r ++ rest) := by
              simp only [List.cons_append]
              exact skipWs_cons_not _ hws
            simp only [parseVal, h1]
            rw [if_neg hne.1, if_neg hne.2.1, if_neg hne.2.2.1, if_neg hne.2.2.2.1,
              if_neg hne.2.2.2.2.1, if_neg hne.2.2.2.2.2,
              ← List.cons_append, ← hc, parseNumTok_round n rest hwfn hrest]
        | arr xs =>
            cases xs with
            | nil =>
                simp only [dumpVal, List.cons_append, List.nil_append]
                have h1 : skipWs ('[' :: (']' :: rest)) = '[' :: (']' :: rest) :=
                  skipWs_cons_not _ (by decide)
                have h2 : skipWs (']' :: rest) = ']' :: rest := skipWs_cons_not _ (by decide)
                simp [parseVal, h1, h2]
            | cons x xs' =>
                have hw : wfVal x = true ∧ wfItems xs' = true := by
                  simpa [wfVal, wfItems, Bool.and_eq_true] using hwf
                have hsz' : jsizeItems (.cons x xs') ≤ f := by
                  simp only [jsizeV] at hsz
                  omega
                simp only [dumpVal, List.cons_append, List.append_assoc, List.singleton_append, List.nil_append]
                obtain ⟨c, cr, hc, hcws, hcrb, _⟩ := dumpVal_head x (lvl + 1)
                have h1 : skipWs ('[' :: ('\n' :: (indentChars (lvl + 1) ++ (dumpVal x (lvl + 1)
                    ++ (dumpItemsRest xs' (lvl + 1) ++ '\n' :: (indentChars lvl ++ ']' :: rest))))))
                    = '[' :: ('\n' :: (indentChars (lvl + 1) ++ (dumpVal x (lvl + 1)
                    ++ (dumpItemsRest xs' (lvl + 1) ++ '\n' :: (indentChars lvl ++ ']' :: rest))))) :=
                  skipWs_cons_not _ (by decide)
                have h2 : skipWs ('\n' :: (indentChars (lvl + 1) ++ (dumpVal x (lvl + 1)
                    ++ (dumpItemsRest xs' (lvl + 1) ++ '\n' :: (indentChars lvl ++ ']' :: rest)))))
                    = c :: (cr ++ (dumpItemsRest xs' (lvl + 1)
                        ++ '\n' :: (indentChars lvl ++ ']' :: rest))) := by
                  rw [skipWs_nl, skipWs_indent, hc]
                  simp only [List.cons_append]
                  rw [skipWs_cons_not _ hcws]
                have hitems := ihI x xs' (lvl + 1) lvl ('\n' :: indentChars (lvl + 1)) rest
                  hw.1 hw.2 (nl_indent_ws (lvl + 1)) hsz'
                simp only [List.cons_append] at hitems
                simp only [parseVal, h1, h2]
                simp [if_neg hcrb, hitems]
        | obj fs =>
            cases fs with
            | nil =>
                simp only [dumpVal, List.cons_append, List.nil_append]
                have h1 : skipWs ('\x7b' :: ('\x7d' :: rest)) = '\x7b' :: ('\x7d' :: rest) :=
                  skipWs_cons_not _ (by decide)
                have h2 : skipWs ('\x7d' :: rest) = '\x7d' :: rest := skipWs_cons_not _ (by decide)
                simp [parseVal, h1, h2]
            | cons k v' fs' =>
                have hw : plainStr k = true ∧ wfVal v' = true ∧ wfFields fs' = true := by
                  simpa [wfVal, wfFields, Bool.and_eq_true, and_assoc] using hwf
                have hsz' : jsizeFields (.cons k v' fs') ≤ f := by
                  simp only [jsizeV] at hsz
                  omega
                simp only [dumpVal, List.cons_append, List.append_assoc, List.singleton_append, List.nil_append]
                have h1 : skipWs ('\x7b' :: ('\n' :: (indentChars (lvl + 1)
                    ++ ('"' :: (escStrChars k ++ '"' :: ':' :: ' ' :: dumpVal v' (lvl + 1))
                    ++ (dumpFieldsRest fs' (lvl + 1) ++ '\n' :: (indentChars lvl ++ '\x7d' :: rest))))))
                    = '\x7b' :: ('\n' :: (indentChars (lvl + 1)
                    ++ ('"' :: (escStrChars k ++ '"' :: ':' :: ' ' :: dumpVal v' (lvl + 1))
                    ++ (dumpFieldsRest fs' (lvl + 1) ++ '\n' :: (indentChars lvl ++ '\x7d' :: rest))))) :=
                  skipWs_cons_not _ (by decide)
                have h2 : skipWs ('\n' :: (indentChars (lvl + 1)
                    ++ ('"' :: (escStrChars k ++ '"' :: ':' :: ' ' :: dumpVal v' (lvl + 1))
                    ++ (dumpFieldsRest fs' (lvl + 1) ++ '\n' :: (indentChars lvl ++ '\x7d' :: rest)))))
                    = '"' :: ((escStrChars k ++ '"' :: ':' :: ' ' :: dumpVal v' (lvl + 1))
                    ++ (dumpFieldsRest fs' (lvl + 1) ++ '\n' :: (indentChars lvl ++ '\x7d' :: rest))) := by
                  rw [skipWs_nl, skipWs_indent]
                  simp only [List.cons_append, List.append_assoc]
                  rw [skipWs_cons_not _ (by decide)]
                have hfields := ihF k v' fs' (lvl + 1) lvl ('\n' :: indentChars (lvl + 1)) rest
                  hw.1 hw.2.1 hw.2.2 (nl_indent_ws (lvl + 1)) hsz'
                simp only [List.cons_append, List.append_assoc] at hfields h1 h2 ⊢
                simp only [parseVal, h1, h2]
                simp [hfields]
      · intro x xs lvl lvl2 pad rest hwx hwxs hpad hsz
        simp only [jsizeItems] at hsz
        cases xs with
        | nil =>
            have hval := ihV x lvl ('\n' :: (indentChars lvl2 ++ ']' :: rest)) hwx
              (by omega) (numSafeB_cons _ (by decide) (by decide))
            simp only [parseItems, dumpItemsRest, List.nil_append]
            rw [parseVal_ws f pad _ hpad, hval]
            have h2 : skipWs ('\n' :: (indentChars lvl2 ++ ']' :: rest)) = ']' :: rest := by
              rw [skipWs_nl, skipWs_indent]
              exact skipWs_cons_not _ (by decide)
            simp [h2]
        | cons y ys =>
            have hwy : wfVal y = true ∧ wfItems ys = true := by
              simpa [wfItems, Bool.and_eq_true] using hwxs
            have hsz2 : jsizeItems (.cons y ys) ≤ f := by
              simp only [jsizeItems] at hsz ⊢
              have := jsizeV_pos x
              omega
            simp only [parseItems, dumpItemsRest, List.cons_append, List.append_assoc]
            have hval := ihV x lvl (',' :: ('\n' :: (indentChars lvl ++ (dumpVal y lvl
              ++ (dumpItemsRest ys lvl ++ '\n' :: (indentChars lvl2 ++ ']' :: rest)))))) hwx
              (by omega) (numSafeB_cons _ (by decide) (by decide))
            rw [parseVal_ws f pad _ hpad]
            simp only [List.cons_append, List.append_assoc] at hval ⊢
            rw [hval]
            have h2 : skipWs (',' :: ('\n' :: (indentChars lvl ++ (dumpVal y lvl
                ++ (dumpItemsRest ys lvl ++ '\n' :: (indentChars lvl2 ++ ']' :: rest))))))
                = ',' :: ('\n' :: (indentChars lvl ++ (dumpVal y lvl
                ++ (dumpItemsRest ys lvl ++ '\n' :: (indentChars lvl2 ++ ']' :: rest))))) :=
              skipWs_cons_not _ (by decide)
            have hitems := ihI y ys lvl lvl2 ('\n' :: indentChars lvl) rest
              hwy.1 hwy.2 (nl_indent_ws lvl) hsz2
            simp only [List.cons_append] at hitems
            simp [h2, hitems]
      · intro k v fs lvl lvl2 pad rest hpk hwv hwfs hpad hsz
        simp only [jsizeFields] at hsz
        have hs1 : skipWs (pad ++ ('"' :: (escStrChars k ++ '"' :: ':' :: ' ' :: dumpVal v lvl)
            ++ (dumpFieldsRest fs lvl ++ '\n' :: (indentChars lvl2 ++ '\x7d' :: rest))))
            = '"' :: ((escStrChars k ++ '"' :: ':' :: ' ' :: dumpVal v lvl)
            ++ (dumpFieldsRest fs lvl ++ '\n' :: (indentChars lvl2 ++ '\x7d' :: rest))) := by
          rw [skipWs_append_ws _ hpad]
          simp only [List.cons_append, List.append_assoc]
          rw [skipWs_cons_not _ (by decide)]
        have hstr : parseStrTok ((escStrChars k ++ '"' :: ':' :: ' ' :: dumpVal v lvl)
            ++ (dumpFieldsRest fs lvl ++ '\n' :: (indentChars lvl2 ++ '\x7d' :: rest)))
            = some (k, ':' :: ' ' :: dumpVal v lvl
                ++ (dumpFieldsRest fs lvl ++ '\n' :: (indentChars lvl2 ++ '\x7d' :: rest))) := by
          rw [escStrChars_plain hpk]
          have := parseStrTok_round (s := k) (':' :: ' ' :: dumpVal v lvl
            ++ (dumpFieldsRest fs lvl ++ '\n' :: (indentChars lvl2 ++ '\x7d' :: rest))) hpk
          simpa [List.append_assoc, List.cons_append] using this
        simp only [parseFields, hs1, if_true, if_false]
        rw [hstr]
        have hs2 : skipWs (':' :: ' ' :: dumpVal v lvl
            ++ (dumpFieldsRest fs lvl ++ '\n' :: (indentChars lvl2 ++ '\x7d' :: rest)))
            = ':' :: (' ' :: dumpVal v lvl
            ++ (dumpFieldsRest fs lvl ++ '\n' :: (indentChars lvl2 ++ '\x7d' :: rest))) := by
          simp only [List.cons_append]
          exact skipWs_cons_not _ (by decide)
        simp only [hs2, if_true, if_false]
        cases fs with
        | nil =>
            have hval := ihV v lvl ('\n' :: (indentChars lvl2 ++ '\x7d' :: rest)) hwv
              (by omega) (numSafeB_cons _ (by decide) (by decide))
            have hv2 : parseVal f (' ' :: dumpVal v lvl
                ++ (dumpFieldsRest JFields.nil lvl ++ '\n' :: (indentChars lvl2 ++ '\x7d' :: rest)))
                = some (v, '\n' :: (indentChars lvl2 ++ '\x7d' :: rest)) := by
              simp only [dumpFieldsRest, List.nil_append, List.cons_append]
              rw [show (' ' :: (dumpVal v lvl ++ '\n' :: (indentChars lvl2 ++ '\x7d' :: rest)))
                  = [' '] ++ (dumpVal v lvl ++ '\n' :: (indentChars lvl2 ++ '\x7d' :: rest)) by simp]
              rw [parseVal_ws f [' '] _ (by intro c hc; simp at hc; subst hc; decide), hval]
            rw [hv2]
            have h2 : skipWs ('\n' :: (indentChars lvl2 ++ '\x7d' :: rest)) = '\x7d' :: rest := by
              rw [skipWs_nl, skipWs_indent]
              exact skipWs_cons_not _ (by decide)
            simp [h2]
        | cons k2 v2 fs2 =>
            have hwf2 : plainStr k2 = true ∧ wfVal v2 = true ∧ wfFields fs2 = true := by
              simpa [wfFields, Bool.and_eq_true, and_assoc] using hwfs
            have hsz2 : jsizeFields (.cons k2 v2 fs2) ≤ f := by
              simp only [jsizeFields] at hsz ⊢
              have := jsizeV_pos v
              omega
            have hval := ihV v lvl (',' :: ('\n' :: (indentChars lvl
              ++ ('"' :: (escStrChars k2 ++ '"' :: ':' :: ' ' :: dumpVal v2 lvl)
              ++ (dumpFieldsRest fs2 lvl ++ '\n' :: (indentChars lvl2 ++ '\x7d' :: rest)))))) hwv
              (by omega) (numSafeB_cons _ (by decide) (by decide))
            have hv2 : parseVal f (' ' :: dumpVal v lvl
                ++ (dumpFieldsRest (.cons k2 v2 fs2) lvl
                  ++ '\n' :: (indentChars lvl2 ++ '\x7d' :: rest)))
                = some (v, ',' :: ('\n' :: (indentChars lvl
                  ++ ('"' :: (escStrChars k2 ++ '"' :: ':' :: ' ' :: dumpVal v2 lvl)
                  ++ (dumpFieldsRest fs2 lvl ++ '\n' :: (indentChars lvl2 ++ '\x7d' :: rest)))))) := by
              simp only [dumpFieldsRest, List.cons_append, List.append_assoc] at hval ⊢
              rw [show (' ' :: (dumpVal v lvl ++ ',' :: ('\n' :: (indentChars lvl
                  ++ ('"' :: (escStrChars k2 ++ '"' :: ':' :: ' ' :: (dumpVal v2 lvl
                  ++ (dumpFieldsRest fs2 lvl ++ '\n' :: (indentChars lvl2 ++ '\x7d' :: rest)))))))))
                  = [' '] ++ (dumpVal v lvl ++ ',' :: ('\n' :: (indentChars lvl
                  ++ ('"' :: (escStrChars k2 ++ '"' :: ':' :: ' ' :: (dumpVal v2 lvl
                  ++ (dumpFieldsRest fs2 lvl ++ '\n' :: (indentChars lvl2 ++ '\x7d' :: rest))))))))
                  by simp]
              rw [parseVal_ws f [' '] _ (by intro c hc; simp at hc; subst hc; decide)]
              exact hval
            rw [hv2]
            have h2 : skipWs (',' :: ('\n' :: (indentChars lvl
                ++ ('"' :: (escStrChars k2 ++ '"' :: ':' :: ' ' :: dumpVal v2 lvl)
                ++ (dumpFieldsRest fs2 lvl ++ '\n' :: (indentChars lvl2 ++ '\x7d' :: rest))))))
                = ',' :: ('\n' :: (indentChars lvl
                ++ ('"' :: (escStrChars k2 ++ '"' :: ':' :: ' ' :: dumpVal v2 lvl)
                ++ (dumpFieldsRest fs2 lvl ++ '\n' :: (indentChars lvl2 ++ '\x7d' :: rest))))) :=
              skipWs_cons_not _ (by decide)
            have hfields := ihF k2 v2 fs2 lvl lvl2 ('\n' :: indentChars lvl) rest
              hwf2.1 hwf2.2.1 hwf2.2.2 (nl_indent_ws lvl) hsz2
            simp only [List.cons_append, List.append_assoc] at hfields h2 ⊢
            simp [h2, hfields]

theorem numChars_ne_nil (n : JNum) : numChars n ≠ [] := by
  obtain ⟨c, r, hc, _⟩ := numChars_head n
  rw [hc]
  simp

mutual

theorem jsizeV_le_len (v : JSON) (lvl : Nat) : jsizeV v ≤ (dumpVal v lvl).length := by
  cases v with
  | null => simp [jsizeV, dumpVal]
  | bool b => cases b <;> simp [jsizeV, dumpVal]
  | num n =>
      obtain ⟨c, r, hc, _⟩ := numChars_head n
      simp [jsizeV, dumpVal, hc]
  | str s => simp [jsizeV, dumpVal]
  | arr xs =>
      cases xs with
      | nil => simp [jsizeV, jsizeItems, dumpVal]
      | cons x xs' =>
          have h1 := jsizeV_le_len x (lvl + 1)
          have h2 := jsizeItems_le_len xs' (lvl + 1)
          simp only [jsizeV, jsizeItems, dumpVal, List.length_cons, List.length_append]
          omega
  | obj fs =>
      cases fs with
      | nil => simp [jsizeV, jsizeFields, dumpVal]
      | cons k v' fs' =>
          have h1 := jsizeV_le_len v' (lvl + 1)
          have h2 := jsizeFields_le_len fs' (lvl + 1)
          simp only [jsizeV, jsizeFields, dumpVal, List.length_cons, List.length_append]
          omega
termination_by structural v

theorem jsizeItems_le_len (xs : JItems) (lvl : Nat) :
    jsizeItems xs ≤ (dumpItemsRest xs lvl).length := by
  cases xs with
  | nil => simp [jsizeItems, dumpItemsRest]
  | cons x xs' =>
      have h1 := jsizeV_le_len x lvl
      have h2 := jsizeItems_le_len xs' lvl
      simp only [jsizeItems, dumpItemsRest, List.length_cons, List.length_append]
      omega
termination_by structural xs

theorem jsizeFields_le_len (fs : JFields) (lvl : Nat) :
    jsizeFields fs ≤ (dumpFieldsRest fs lvl).length := by
  cases fs with
  | nil => simp [jsizeFields, dumpFieldsRest]
  | cons k v fs' =>
      have h1 := jsizeV_le_len v lvl
      have h2 := jsizeFields_le_len fs' lvl
      simp only [jsizeFields, dumpFieldsRest, List.length_cons, List.length_append]
      omega
termination_by structural fs

end

theorem parseVal_round (v : JSON) (lvl : Nat) (rest : List Char) (fuel : Nat)
    (hwf : wfVal v = true) (hsz : jsizeV v ≤ fuel) (hrest : numSafeB rest = true) :
    parseVal fuel (dumpVal v lvl ++ rest) = some (v, rest) :=
  (parse_round_all fuel).1 v lvl rest hwf hsz hrest

theorem extract_js (v : JSON) (hwf : wfVal v = true) :
    extractSequencesJS (generate_javascript_test_function v) = some v := by
  unfold extractSequencesJS generate_javascript_test_function jsonDumps
  obtain ⟨t2, ht2⟩ : ∃ t, jsPart2.data = ';' :: t := ⟨_, rfl⟩
  have hdata : (jsPart1 ++ (⟨dumpVal v 0⟩ : String) ++ jsPart2
      ++ (⟨dumpVal robotCombinationsJSON 0⟩ : String) ++ jsPart3).data
      = jsPart1.data ++ (dumpVal v 0 ++ (jsPart2.data
        ++ (dumpVal robotCombinationsJSON 0 ++ jsPart3.data))) := by
    simp [String.data_append, List.append_assoc]
  rw [hdata, List.drop_left]
  have hsafe : numSafeB (jsPart2.data ++ (dumpVal robotCombinationsJSON 0 ++ jsPart3.data))
      = true := by
    rw [ht2]
    exact numSafeB_cons _ (by decide) (by decide)
  have hfuel : jsizeV v ≤ (jsPart1.data ++ (dumpVal v 0 ++ (jsPart2.data
      ++ (dumpVal robotCombinationsJSON 0 ++ jsPart3.data)))).length := by
    have h1 := jsizeV_le_len v 0
    simp only [List.length_append]
    omega
  rw [parseVal_round v 0 _ _ hwf hfuel hsafe]

theorem escapeBT_head_ne (l : List Char) :
    escapeBTChars l = [] ∨ ∃ c r, escapeBTChars l = c :: r ∧ c ≠ '`' := by
  cases l with
  | nil => exact Or.inl rfl
  | cons c r =>
      right
      by_cases hc : c = '`'
      · subst hc
        exact ⟨'\\', '`' :: escapeBTChars r, by rw [escapeBTChars, if_pos rfl], by decide⟩
      · exact ⟨c, escapeBTChars r, by rw [escapeBTChars, if_neg hc], hc⟩

theorem unescapeBT_cons2 {c c2 : Char} (r : List Char) (h : ¬(c = '\\' ∧ c2 = '`')) :
    unescapeBTChars (c :: c2 :: r) = c :: unescapeBTChars (c2 :: r) := by
  rw [unescapeBTChars.eq_def]
  split
  · rename_i heq
    simp at heq
  · rename_i r2 heq
    injection heq with h1 h2
    injection h2 with h2 h3
    exact absurd ⟨h1, h2⟩ h
  · rename_i c3 r3 hno heq
    injection heq with h1 h2
    subst h1
    rw [← h2]

theorem unescapeBT_singleton (c : Char) : unescapeBTChars [c] = [c] := by
  rw [unescapeBTChars.eq_def]
  split
  · rename_i heq
    simp at heq
  · rename_i r2 heq
    injection heq with h1 h2
    simp at h2
  · rename_i c3 r3 hno heq
    injection heq with h1 h2
    subst h1
    rw [← h2]
    rfl

theorem unescape_escape (l : List Char) : unescapeBTChars (escapeBTChars l) = l := by
  induction l with
  | nil => rfl
  | cons c r ih =>
      by_cases hc : c = '`'
      · subst hc
        rw [escapeBTChars, if_pos rfl]
        rw [show unescapeBTChars ('\\' :: '`' :: escapeBTChars r)
          = '`' :: unescapeBTChars (escapeBTChars r) from rfl, ih]
      · rw [escapeBTChars, if_neg hc]
        rcases escapeBT_head_ne r with h | ⟨c2, r2, h, hne⟩
        · rw [h]
          rw [h] at ih
          have hr : r = [] := by simpa [unescapeBTChars] using ih.symm
          subst hr
          exact unescapeBT_singleton c
        · rw [h]
          rw [unescapeBT_cons2 _ (fun hp => hne hp.2), ← h, ih]

theorem noBT_append (a b : List Char) : noBT (a ++ b) = (noBT a && noBT b) :=
  List.all_append

theorem betweenOuter_eq {A B : List Char} (E : List Char)
    (hA : noBT A = true) (hB : noBT B = true) :
    betweenOuter '`' (A ++ '`' :: (E ++ '`' :: B)) = E := by
  have hAne : ∀ c ∈ A, (c != '`') = true := by
    simpa [noBT, List.all_eq_true] using hA
  have hBne : ∀ c ∈ B.reverse, (c != '`') = true := by
    intro c hc
    rw [List.mem_reverse] at hc
    exact (by simpa [noBT, List.all_eq_true] using hB : ∀ c ∈ B, (c != '`') = true) c hc
  have hq : (('`' : Char) != '`') = false := by decide
  unfold betweenOuter
  rw [dropWhile_append_all _ _ hAne hq]
  rw [show ('`' :: (E ++ '`' :: B)).drop 1 = E ++ '`' :: B from rfl]
  rw [show (E ++ '`' :: B).reverse = B.reverse ++ '`' :: E.reverse from by
    simp [List.reverse_append]]
  rw [dropWhile_append_all _ _ hBne hq]
  rw [show ('`' :: E.reverse).drop 1 = E.reverse from rfl, List.reverse_reverse]

theorem plainChar_ne_bt {c : Char} (h : plainChar c = true) : (c != '`') = true := by
  simp only [plainChar, Bool.and_eq_true] at h
  exact h.2

theorem noBT_of_plain {l : List Char} (h : ∀ c ∈ l, plainChar c = true) : noBT l = true := by
  simp only [noBT, List.all_eq_true]
  exact fun c hc => plainChar_ne_bt (h c hc)

theorem noBT_plainStr {s : String} (h : plainStr s = true) : noBT s.data = true :=
  noBT_of_plain (by simpa [plainStr, List.all_eq_true] using h)

theorem isDigit_ne_bt {c : Char} (h : c.isDigit = true) : (c != '`') = true := by
  simpa using isDigit_ne h (by decide)

theorem noBT_natChars (n : Nat) : noBT (natChars n) = true := by
  simp only [noBT, List.all_eq_true]
  exact fun c hc => isDigit_ne_bt (natChars_digits n c hc)

theorem noBT_intChars (i : Int) : noBT (intChars i) = true := by
  unfold intChars
  split
  · simpa [noBT, noBT_natChars (Int.natAbs i)] using noBT_natChars i.natAbs
  · exact noBT_natChars i.natAbs

theorem noBT_format1f (n : JNum) : noBT (format1f n).data = true := by
  cases n with
  | int i =>
      show noBT (intChars i ++ ['.', '0']) = true
      rw [noBT_append, noBT_intChars]
      decide
  | dec m e =>
      show noBT ((if m < 0 then ['-'] else []) ++ natChars _ ++ ['.', digitChar _]) = true
      rw [noBT_append, noBT_append, noBT_natChars]
      have hd : noBT ['.', digitChar (roundHalfEven m.natAbs (10 ^ (e - 1)) % 10)] = true := by
        simp only [noBT, List.all_cons, List.all_nil]
        have := isDigit_ne_bt (digitChar_isDigit (roundHalfEven m.natAbs (10 ^ (e - 1)) % 10))
        simp [this]
      rw [hd]
      split <;> decide

theorem asciiUpper_ne_bt {c : Char} (h : (c != '`') = true) : (asciiUpper c != '`') = true := by
  unfold asciiUpper
  split <;> first | decide | exact h

theorem asciiLower_ne_bt {c : Char} (h : (c != '`') = true) : (asciiLower c != '`') = true := by
  unfold asciiLower
  split <;> first | decide | exact h

theorem noBT_titleGo (b : Bool) (l : List Char) (h : noBT l = true) :
    noBT (titleGo b l) = true := by
  induction l generalizing b with
  | nil => rfl
  | cons c r ih =>
      simp only [noBT, List.all_cons, Bool.and_eq_true] at h
      simp only [titleGo, noBT, List.all_cons, Bool.and_eq_true]
      refine ⟨?_, ih _ h.2⟩
      split
      · split
        · exact asciiLower_ne_bt h.1
        · exact asciiUpper_ne_bt h.1
      · exact h.1

theorem noBT_pyTitle {s : String} (h : noBT s.data = true) : noBT (pyTitle s).data = true :=
  noBT_titleGo false s.data h

theorem noBT_padZeros {e : Nat} {l : List Char} (h : noBT l = true) :
    noBT (padZeros e l) = true := by
  rw [padZeros, noBT_append, h]
  have : noBT (List.replicate (e - l.length) '0') = true := by
    simp only [noBT, List.all_eq_true]
    intro c hc
    have := List.eq_of_mem_replicate hc
    subst this
    decide
  simp [this]

theorem noBT_numChars (n : JNum) : noBT (numChars n) = true := by
  cases n with
  | int i => exact noBT_intChars i
  | dec m e =>
      show noBT ((if m < 0 then ['-'] else []) ++ natChars _ ++ '.' :: padZeros e (natChars _))
        = true
      rw [noBT_append, noBT_append, noBT_natChars]
      have h1 : noBT ('.' :: padZeros e (natChars (m.natAbs % 10 ^ e))) = true := by
        simp only [noBT, List.all_cons, Bool.and_eq_true]
        exact ⟨by decide, noBT_padZeros (noBT_natChars _)⟩
      rw [h1]
      split <;> decide

mutual

theorem noBT_pyStr (v : JSON) (hwf : wfVal v = true) : noBT (pyStr v).data = true := by
  cases v with
  | null => decide
  | bool b => cases b <;> decide
  | num n => exact noBT_numChars n
  | str s => exact noBT_plainStr (by simpa [wfVal] using hwf)
  | arr xs =>
      show noBT (("[" ++ pyReprItems xs ++ "]").data) = true
      rw [String.data_append, String.data_append, noBT_append, noBT_append]
      rw [noBT_pyReprItems xs (by simpa [wfVal] using hwf)]
      decide
  | obj fs =>
      show noBT (("\x7b" ++ pyReprFields fs ++ "\x7d").data) = true
      rw [String.data_append, String.data_append, noBT_append, noBT_append]
      rw [noBT_pyReprFields fs (by simpa [wfVal] using hwf)]
      decide
termination_by structural v

theorem noBT_pyReprVal (v : JSON) (hwf : wfVal v = true) : noBT (pyReprVal v).data = true := by
  cases v with
  | str s =>
      show noBT (("'" ++ s ++ "'").data) = true
      simp only [String.data_append, noBT_append, Bool.and_eq_true]
      exact ⟨⟨by decide, noBT_plainStr (by simpa [wfVal] using hwf)⟩, by decide⟩
  | null => decide
  | bool b => cases b <;> decide
  | num n => exact noBT_numChars n
  | arr xs =>
      show noBT (("[" ++ pyReprItems xs ++ "]").data) = true
      rw [String.data_append, String.data_append, noBT_append, noBT_append]
      rw [noBT_pyReprItems xs (by simpa [wfVal] using hwf)]
      decide
  | obj fs =>
      show noBT (("\x7b" ++ pyReprFields fs ++ "\x7d").data) = true
      rw [String.data_append, String.data_append, noBT_append, noBT_append]
      rw [noBT_pyReprFields fs (by simpa [wfVal] using hwf)]
      decide
termination_by structural v

theorem noBT_pyReprItems (xs : JItems) (hwf : wfItems xs = true) :
    noBT (pyReprItems xs).data = true := by
  cases xs with
  | nil => decide
  | cons x xs' =>
      have hw : wfVal x = true ∧ wfItems xs' = true := by
        simpa [wfItems, Bool.and_eq_true] using hwf
      cases xs' with
      | nil => exact noBT_pyReprVal x hw.1
      | cons y ys =>
          show noBT ((pyReprVal x ++ ", " ++ pyReprItems (.cons y ys)).data) = true
          rw [String.data_append, String.data_append, noBT_append, noBT_append]
          rw [noBT_pyReprVal x hw.1, noBT_pyReprItems (.cons y ys) hw.2]
          decide
termination_by structural xs

theorem noBT_pyReprFields (fs : JFields) (hwf : wfFields fs = true) :
    noBT (pyReprFields fs).data = true := by
  cases fs with
  | nil => decide
  | cons k v fs' =>
      have hw : plainStr k = true ∧ wfVal v = true ∧ wfFields fs' = true := by
        simpa [wfFields, Bool.and_eq_true, and_assoc] using hwf
      cases fs' with
      | nil =>
          show noBT (("'" ++ k ++ "': " ++ pyReprVal v).data) = true
          simp only [String.data_append, noBT_append, Bool.and_eq_true]
          exact ⟨⟨⟨by decide, noBT_plainStr hw.1⟩, by decide⟩, noBT_pyReprVal v hw.2.1⟩
      | cons k2 v2 fs2 =>
          show noBT (("'" ++ k ++ "': " ++ pyReprVal v ++ ", "
            ++ pyReprFields (.cons k2 v2 fs2)).data) = true
          simp only [String.data_append, noBT_append, Bool.and_eq_true]
          exact ⟨⟨⟨⟨⟨by decide, noBT_plainStr hw.1⟩, by decide⟩, noBT_pyReprVal v hw.2.1⟩,
            by decide⟩, noBT_pyReprFields (.cons k2 v2 fs2) hw.2.2⟩
termination_by structural fs

end

theorem noBT_intercalate_go {sep : String} (hsep : noBT sep.data = true) :
    ∀ (l : List String) (acc : String), noBT acc.data = true →
      (∀ s ∈ l, noBT s.data = true) →
      noBT (String.intercalate.go acc sep l).data = true := by
  intro l
  induction l with
  | nil => intro acc hacc _; exact hacc
  | cons a as ih =>
      intro acc hacc hall
      show noBT (String.intercalate.go (acc ++ sep ++ a) sep as).data = true
      refine ih _ ?_ (fun s hs => hall s (by simp [hs]))
      simp only [String.data_append, noBT_append, Bool.and_eq_true]
      exact ⟨⟨hacc, hsep⟩, hall a (by simp)⟩

theorem noBT_pyJoin {sep : String} {l : List String} (hsep : noBT sep.data = true)
    (h : ∀ s ∈ l, noBT s.data = true) : noBT (pyJoin sep l).data = true := by
  cases l with
  | nil =>
      show noBT (String.intercalate sep []).data = true
      rw [show String.intercalate sep [] = "" from rfl]
      decide
  | cons a as =>
      show noBT (String.intercalate.go a sep as).data = true
      exact noBT_intercalate_go hsep as a (h a (by simp)) (fun s hs => h s (by simp [hs]))

theorem noBT_moveDiv {x : JSON} {d : String} (h : moveDiv x = .ok d) (hwf : wfVal x = true) :
    noBT d.data = true := by
  cases x with
  | str s =>
      simp only [moveDiv, pyStrAttr] at h
      injection h with h
      subst h
      have hpl : plainStr s = true := by simpa [wfVal] using hwf
      simp only [String.data_append, noBT_append, Bool.and_eq_true, pyStr]
      exact ⟨⟨⟨⟨by decide, noBT_plainStr hpl⟩, by decide⟩,
        noBT_pyTitle (noBT_plainStr hpl)⟩, by decide⟩
  | null => simp [moveDiv, pyStrAttr] at h
  | bool b => simp [moveDiv, pyStrAttr] at h
  | num n => simp [moveDiv, pyStrAttr] at h
  | arr xs => simp [moveDiv, pyStrAttr] at h
  | obj fs => simp [moveDiv, pyStrAttr] at h

theorem noBT_moveDivs (xs : JItems) : ∀ {ds : List String}, moveDivs xs = .ok ds →
    wfItems xs = true → ∀ d ∈ ds, noBT d.data = true := by
  cases xs with
  | nil =>
      intro ds h _
      simp only [moveDivs] at h
      injection h with h
      subst h
      simp
  | cons x xs' =>
      intro ds h hwf
      have hw : wfVal x = true ∧ wfItems xs' = true := by
        simpa [wfItems, Bool.and_eq_true] using hwf
      simp only [moveDivs] at h
      cases hx : moveDiv x with
      | error e => rw [hx] at h; simp at h
      | ok d0 =>
          rw [hx] at h
          cases hxs : moveDivs xs' with
          | error e => rw [hxs] at h; simp at h
          | ok ds0 =>
              rw [hxs] at h
              simp only [] at h
              injection h with h
              subst h
              intro d hd
              rcases List.mem_cons.mp hd with rfl | hd
              · exact noBT_moveDiv hx hw.1
              · exact noBT_moveDivs xs' hxs hw.2 d hd
termination_by structural xs

theorem noBT_htmlMoves {v : JSON} {d : String} (h : htmlMoves v = .ok d)
    (hwf : wfVal v = true) : noBT d.data = true := by
  cases v with
  | arr xs =>
      simp only [htmlMoves] at h
      cases hds : moveDivs xs with
      | error e => rw [hds] at h; cases h
      | ok ds =>
          rw [hds] at h
          injection h with h
          subst h
          exact noBT_pyJoin (by decide) (noBT_moveDivs xs hds (by simpa [wfVal] using hwf))
  | null => simp [htmlMoves] at h
  | bool b => simp [htmlMoves] at h
  | num n => simp [htmlMoves] at h
  | str s => simp [htmlMoves] at h
  | obj fs => simp [htmlMoves] at h

theorem wfFields_jfGet (fs : JFields) : ∀ {k : String} {x : JSON}, jfGet fs k = some x →
    wfFields fs = true → wfVal x = true := by
  cases fs with
  | nil => intro k x h _; simp [jfGet] at h
  | cons k2 v2 fs2 =>
      intro k x h hwf
      have hw : plainStr k2 = true ∧ wfVal v2 = true ∧ wfFields fs2 = true := by
        simpa [wfFields, Bool.and_eq_true, and_assoc] using hwf
      rw [jfGet] at h
      by_cases hk : k2 = k
      · rw [if_pos hk] at h
        injection h with h
        subst h
        exact hw.2.1
      · rw [if_neg hk] at h
        exact wfFields_jfGet fs2 h hw.2.2
termination_by structural fs

theorem wfVal_pyGet {v : JSON} {k : String} {x : JSON} (h : pyGet v k = .ok x)
    (hwf : wfVal v = true) : wfVal x = true := by
  cases v with
  | obj fs =>
      simp only [pyGet] at h
      cases hg : jfGet fs k with
      | none => rw [hg] at h; simp at h
      | some y =>
          rw [hg] at h
          injection h with h
          subst h
          exact wfFields_jfGet fs hg (by simpa [wfVal] using hwf)
  | null => simp [pyGet] at h
  | bool b => simp [pyGet] at h
  | num n => simp [pyGet] at h
  | str s => simp [pyGet] at h
  | arr xs => simp [pyGet] at h

theorem noBT_htmlPart1 : noBT htmlPart1.data = true := by
  show noBT ((htmlPart1c0 ++ htmlPart1c1 ++ htmlPart1c2 ++ htmlPart1c3).data) = true
  simp only [String.data_append, noBT_append, Bool.and_eq_true]
  refine ⟨⟨⟨?_, ?_⟩, ?_⟩, ?_⟩ <;> decide

theorem bind_ok_E {α β : Type} (a : α) (f : α → Except PyAbort β) :
    (Except.ok a >>= f : Except PyAbort β) = f a := rfl

theorem bind_err_E {α β : Type} (e : PyAbort) (f : α → Except PyAbort β) :
    ((Except.error e : Except PyAbort α) >>= f) = Except.error e := rfl

theorem extract_html (v r25 r50 b25 b50 : JSON) (a25 a50 : JNum) (n25 n50 : String)
    (xs25 xs50 : JItems) (html : String)
    (hwf : wfVal v = true)
    (h25 : pyGet v "25_moves" = .ok r25)
    (ha25 : pyGet r25 "avg_win_rate" = .ok (.num a25))
    (hb25 : pyGet r25 "beats_count" = .ok b25)
    (hn25 : pyGet r25 "name" = .ok (.str n25))
    (hs25 : pyGet r25 "sequence" = .ok (.arr xs25))
    (h50 : pyGet v "50_moves" = .ok r50)
    (ha50 : pyGet r50 "avg_win_rate" = .ok (.num a50))
    (hb50 : pyGet r50 "beats_count" = .ok b50)
    (hn50 : pyGet r50 "name" = .ok (.str n50))
    (hs50 : pyGet r50 "sequence" = .ok (.arr xs50))
    (hgen : create_html_test_page v = .ok html) :
    extractSequencesHTML html = some v := by
  have hwf25 : wfVal r25 = true := wfVal_pyGet h25 hwf
  have hwf50 : wfVal r50 = true := wfVal_pyGet h50 hwf
  have hwfb25 : wfVal b25 = true := wfVal_pyGet hb25 hwf25
  have hwfb50 : wfVal b50 = true := wfVal_pyGet hb50 hwf50
  have hwfn25 : plainStr n25 = true := by simpa [wfVal] using wfVal_pyGet hn25 hwf25
  have hwfn50 : plainStr n50 = true := by simpa [wfVal] using wfVal_pyGet hn50 hwf50
  have hwfx25 : wfVal (.arr xs25) = true := wfVal_pyGet hs25 hwf25
  have hwfx50 : wfVal (.arr xs50) = true := wfVal_pyGet hs50 hwf50
  simp only [create_html_test_page, h25, ha25, hb25, hn25, hs25, h50, ha50, hb50, hn50,
    hs50, pyNumFmt, pyStrAttr, bind_ok_E] at hgen
  cases hm25 : htmlMoves (.arr xs25) with
  | error e => rw [hm25] at hgen; simp [pyNumFmt, pyStrAttr, bind_err_E, bind_ok_E] at hgen
  | ok d25 =>
      rw [hm25] at hgen
      simp only [bind_ok_E] at hgen
      cases hm50 : htmlMoves (.arr xs50) with
      | error e => rw [hm50] at hgen; simp [pyNumFmt, pyStrAttr, bind_err_E, bind_ok_E] at hgen
      | ok d50 =>
          rw [hm50] at hgen
          simp only [bind_ok_E] at hgen
          injection hgen with hgen
          subst hgen
          have hnb25 : noBT d25.data = true := noBT_htmlMoves hm25 hwfx25
          have hnb50 : noBT d50.data = true := noBT_htmlMoves hm50 hwfx50
          unfold extractSequencesHTML
          have hshape : (htmlPart1 ++ format1f a25 ++ htmlPart2 ++ pyStr b25 ++ htmlPart3
              ++ pyTitle n25 ++ htmlPart4 ++ d25 ++ htmlPart5 ++ format1f a50
              ++ htmlPart6 ++ pyStr b50 ++ htmlPart7 ++ pyTitle n50 ++ htmlPart8
              ++ d50 ++ htmlPart9
              ++ escapeBTStr (generate_javascript_test_function v) ++ htmlPart10).data
              = (htmlPart1.data ++ ((format1f a25).data ++ (htmlPart2.data ++ ((pyStr b25).data
                ++ (htmlPart3.data ++ ((pyTitle n25).data ++ (htmlPart4.data ++ (d25.data
                ++ (htmlPart5.data ++ ((format1f a50).data ++ (htmlPart6.data ++ ((pyStr b50).data
                ++ (htmlPart7.data ++ ((pyTitle n50).data ++ (htmlPart8.data ++ (d50.data
                ++ htmlPart9pre.data))))))))))))))))
                ++ '`' :: (escapeBTChars (generate_javascript_test_function v).data
                ++ '`' :: htmlPart10post.data) := by
            show _ = _
            simp only [htmlPart9, htmlPart10, escapeBTStr, String.data_append,
              List.append_assoc]
            rfl
          rw [hshape,
            betweenOuter_eq _ ?hA ?hB, unescape_escape]
          case hA =>
            simp only [noBT_append, Bool.and_eq_true]
            refine ⟨noBT_htmlPart1, noBT_format1f a25, by decide, noBT_pyStr b25 hwfb25,
              by decide, noBT_pyTitle (noBT_plainStr hwfn25), by decide, hnb25,
              by decide, noBT_format1f a50, by decide, noBT_pyStr b50 hwfb50,
              by decide, noBT_pyTitle (noBT_plainStr hwfn50), by decide, hnb50,
              by decide⟩
          case hB => decide
          exact extract_js v hwf

theorem md_shape (v r50 q50 : JSON) (n50 : String) (a50 : JNum) (s50 md : String)
    (h25 : pyGet v "25_moves" = .ok c4Record)
    (h50 : pyGet v "50_moves" = .ok r50)
    (hn50 : pyGet r50 "name" = .ok (.str n50))
    (ha50 : pyGet r50 "avg_win_rate" = .ok (.num a50))
    (hs50 : pyGet r50 "sequence" = .ok q50)
    (hq50 : mdJoinSeq q50 = .ok s50)
    (hmd : manualInstructionsMd v = .ok md) :
    md = mdPart1 ++ pyTitle "demo" ++ mdPart2 ++ format1f (.dec 425 1) ++ mdPart3
      ++ "paper → stone → scissor" ++ mdPart4 ++ pyTitle n50 ++ mdPart5 ++ format1f a50
      ++ mdPart6 ++ s50 ++ mdPart7 := by
  simp only [manualInstructionsMd, h25, h50, hn50, ha50, hs50, hq50, bind_ok_E,
    show pyGet c4Record "name" = Except.ok (JSON.str "demo") from rfl,
    show pyGet c4Record "avg_win_rate" = Except.ok (JSON.num (JNum.dec 425 1)) from rfl,
    show pyGet c4Record "sequence" = Except.ok (JSON.arr (JItems.ofList
      [JSON.str "paper", JSON.str "stone", JSON.str "scissor"])) from rfl,
    show mdJoinSeq (JSON.arr (JItems.ofList
      [JSON.str "paper", JSON.str "stone", JSON.str "scissor"]))
      = Except.ok "paper → stone → scissor" from rfl,
    pyStrAttr, pyNumFmt] at hmd
  injection hmd with hmd
  exact hmd.symm

/-- C4: for an input whose `25_moves` record is the example record
`{"sequence": ["paper","stone","scissor"], "name": "demo",
"avg_win_rate": 42.5, "beats_count": 60}` (and whose `50_moves` record has
the fields the template reads), the generated Markdown text contains the
literal line `Sequence: paper → stone → scissor` and the literal line
`**Expected Win Rate: 42.5%**`. -/
theorem c4_markdown_example_lines (v r50 q50 : JSON) (n50 : String) (a50 : JNum)
    (s50 md : String)
    (h25 : pyGet v "25_moves" = .ok c4Record)
    (h50 : pyGet v "50_moves" = .ok r50)
    (hn50 : pyGet r50 "name" = .ok (.str n50))
    (ha50 : pyGet r50 "avg_win_rate" = .ok (.num a50))
    (hs50 : pyGet r50 "sequence" = .ok q50)
    (hq50 : mdJoinSeq q50 = .ok s50)
    (hmd : manualInstructionsMd v = .ok md) :
    containsLine md "Sequence: paper → stone → scissor"
      ∧ containsLine md "**Expected Win Rate: 42.5%**" := by
  have hM := md_shape v r50 q50 n50 a50 s50 md h25 h50 hn50 ha50 hs50 hq50 hmd
  subst hM
  constructor
  · refine ⟨mdPart1 ++ pyTitle "demo" ++ mdPart2 ++ format1f (.dec 425 1) ++ "%**" ++ "\n",
      "\n" ++ "## Best 50-Move Sequence (" ++ pyTitle n50 ++ mdPart5 ++ format1f a50
        ++ mdPart6 ++ s50 ++ mdPart7, ?_⟩
    rw [show mdPart3 = "%**" ++ "\n" ++ "\n" ++ "Sequence: " from rfl,
      show mdPart4 = "\n" ++ "\n" ++ "## Best 50-Move Sequence (" from rfl,
      show ("Sequence: paper → stone → scissor" : String)
        = "Sequence: " ++ "paper → stone → scissor" from rfl]
    simp only [String.append_assoc]
  · refine ⟨mdPart1 ++ pyTitle "demo" ++ ")",
      "\n" ++ "Sequence: " ++ "paper → stone → scissor" ++ mdPart4 ++ pyTitle n50
        ++ mdPart5 ++ format1f a50 ++ mdPart6 ++ s50 ++ mdPart7, ?_⟩
    rw [show mdPart2 = ")" ++ "\n" ++ "**Expected Win Rate: " from rfl,
      show mdPart3 = "%**" ++ "\n" ++ "\n" ++ "Sequence: " from rfl,
      show format1f (JNum.dec 425 1) = "42.5" from rfl,
      show ("**Expected Win Rate: 42.5%**" : String)
        = "**Expected Win Rate: " ++ "42.5" ++ "%**" from rfl]
    simp only [String.append_assoc]

theorem c4_witness :
    pyGet c4Input "25_moves" = .ok c4Record
      ∧ pyGet c4Input "50_moves" = .ok c4Record
      ∧ pyGet c4Record "name" = .ok (.str "demo")
      ∧ pyGet c4Record "avg_win_rate" = .ok (.num (.dec 425 1))
      ∧ pyGet c4Record "sequence" = .ok (.arr (.ofList
          [.str "paper", .str "stone", .str "scissor"]))
      ∧ mdJoinSeq (.arr (.ofList [.str "paper", .str "stone", .str "scissor"]))
          = .ok "paper → stone → scissor"
      ∧ manualInstructionsMd c4Input = .ok (mdPart1 ++ pyTitle "demo" ++ mdPart2
          ++ format1f (.dec 425 1) ++ mdPart3 ++ "paper → stone → scissor" ++ mdPart4
          ++ pyTitle "demo" ++ mdPart5 ++ format1f (.dec 425 1) ++ mdPart6
          ++ "paper → stone → scissor" ++ mdPart7)
      ∧ containsLine (mdPart1 ++ pyTitle "demo" ++ mdPart2
          ++ format1f (.dec 425 1) ++ mdPart3 ++ "paper → stone → scissor" ++ mdPart4
          ++ pyTitle "demo" ++ mdPart5 ++ format1f (.dec 425 1) ++ mdPart6
          ++ "paper → stone → scissor" ++ mdPart7) "Sequence: paper → stone → scissor"
      ∧ containsLine (mdPart1 ++ pyTitle "demo" ++ mdPart2
          ++ format1f (.dec 425 1) ++ mdPart3 ++ "paper → stone → scissor" ++ mdPart4
          ++ pyTitle "demo" ++ mdPart5 ++ format1f (.dec 425 1) ++ mdPart6
          ++ "paper → stone → scissor" ++ mdPart7) "**Expected Win Rate: 42.5%**" := by
  refine ⟨rfl, rfl, rfl, rfl, rfl, rfl, rfl, ?_⟩
  exact c4_markdown_example_lines c4Input c4Record
    (.arr (.ofList [.str "paper", .str "stone", .str "scissor"])) "demo" (.dec 425 1)
    "paper → stone → scissor" _ rfl rfl rfl rfl rfl rfl rfl

theorem jsonLoads_dumps (v : JSON) (hwf : wfVal v = true) :
    jsonLoads (jsonDumps v) = some v := by
  have h : parseVal (dumpVal v 0).length (dumpVal v 0 ++ []) = some (v, []) :=
    parseVal_round v 0 [] (dumpVal v 0).length hwf (jsizeV_le_len v 0) rfl
  rw [List.append_nil] at h
  show (match parseVal (dumpVal v 0).length (dumpVal v 0) with
    | some (v, rest) => if (skipWs rest).isEmpty then some v else none
    | none => none) = some v
  rw [h]
  rfl

theorem html_c4 : create_html_test_page c4Input
    = .ok (htmlPart1 ++ format1f (.dec 425 1) ++ htmlPart2 ++ pyStr (.num (.int 60))
      ++ htmlPart3 ++ pyTitle "demo" ++ htmlPart4
      ++ "<div class=\"move paper\">Paper</div> <div class=\"move stone\">Stone</div> <div class=\"move scissor\">Scissor</div>"
      ++ htmlPart5 ++ format1f (.dec 425 1) ++ htmlPart6 ++ pyStr (.num (.int 60))
      ++ htmlPart7 ++ pyTitle "demo" ++ htmlPart8
      ++ "<div class=\"move paper\">Paper</div> <div class=\"move stone\">Stone</div> <div class=\"move scissor\">Scissor</div>"
      ++ htmlPart9 ++ escapeBTStr (generate_javascript_test_function c4Input)
      ++ htmlPart10) := by
  simp only [create_html_test_page, bind_ok_E, pyNumFmt, pyStrAttr,
    show pyGet c4Input "25_moves" = Except.ok c4Record from rfl,
    show pyGet c4Input "50_moves" = Except.ok c4Record from rfl,
    show pyGet c4Record "name" = Except.ok (JSON.str "demo") from rfl,
    show pyGet c4Record "avg_win_rate" = Except.ok (JSON.num (JNum.dec 425 1)) from rfl,
    show pyGet c4Record "beats_count" = Except.ok (JSON.num (JNum.int 60)) from rfl,
    show pyGet c4Record "sequence" = Except.ok (JSON.arr (JItems.ofList
      [JSON.str "paper", JSON.str "stone", JSON.str "scissor"])) from rfl,
    show htmlMoves (JSON.arr (JItems.ofList
      [JSON.str "paper", JSON.str "stone", JSON.str "scissor"]))
      = Except.ok "<div class=\"move paper\">Paper</div> <div class=\"move stone\">Stone</div> <div class=\"move scissor\">Scissor</div>" from rfl]

theorem md_c4 : manualInstructionsMd c4Input
    = .ok (mdPart1 ++ pyTitle "demo" ++ mdPart2 ++ format1f (.dec 425 1) ++ mdPart3
      ++ "paper → stone → scissor" ++ mdPart4 ++ pyTitle "demo" ++ mdPart5
      ++ format1f (.dec 425 1) ++ mdPart6 ++ "paper → stone → scissor" ++ mdPart7) := by
  simp only [manualInstructionsMd, bind_ok_E, pyNumFmt, pyStrAttr,
    show pyGet c4Input "25_moves" = Except.ok c4Record from rfl,
    show pyGet c4Input "50_moves" = Except.ok c4Record from rfl,
    show pyGet c4Record "name" = Except.ok (JSON.str "demo") from rfl,
    show pyGet c4Record "avg_win_rate" = Except.ok (JSON.num (JNum.dec 425 1)) from rfl,
    show pyGet c4Record "sequence" = Except.ok (JSON.arr (JItems.ofList
      [JSON.str "paper", JSON.str "stone", JSON.str "scissor"])) from rfl,
    show mdJoinSeq (JSON.arr (JItems.ofList
      [JSON.str "paper", JSON.str "stone", JSON.str "scissor"]))
      = Except.ok "paper → stone → scissor" from rfl]

theorem gen_c4_files : (generate_visual_test_files c4Input).writes.map Prod.fst
    = [jsFileName, htmlFileName, mdFileName]
    ∧ (generate_visual_test_files c4Input).abort = none := by
  rw [generate_visual_test_files, html_c4, md_c4]
  exact ⟨rfl, rfl⟩

/-- C1: the spec says a present, valid input file makes the main entry
point write the three artifacts and exit 0.  In the code `main` evaluates
`VisualTester()`, a name the module never binds, so even on a good input
(here: any file system whose input file holds the example document) the
process raises `NameError` and dies without writing anything — while the
same input fed to the data pipeline (`RobotDistinctivenessAnalyzer` plus
`generate_visual_test_files`, which `main` never reaches) would have
written exactly the three artifact files and finished cleanly.  The claim
fails on the code as written: this is a bug in `main` (line 548). -/
theorem c1_undefined_entry (fs : FileSystem)
    (h : fs.read inputFileName = some c4FileText) :
    (visualTesterMain fs).writes = [] ∧ (visualTesterMain fs).prints.length = 2
      ∧ (visualTesterMain fs).abort = some (.exc "NameError")
      ∧ (runGenerator fs).writes.map Prod.fst = [jsFileName, htmlFileName, mdFileName]
      ∧ (runGenerator fs).abort = none := by
  have hrun : runGenerator fs = RunTrace.mk
      (["✅ Loaded optimal sequences successfully"] ++ (generate_visual_test_files c4Input).prints)
      (generate_visual_test_files c4Input).writes
      (generate_visual_test_files c4Input).abort := by
    simp only [runGenerator, load_optimal_sequences, h,
      show c4FileText = jsonDumps c4Input from rfl, jsonLoads_dumps c4Input (by decide)]
  refine ⟨rfl, rfl, rfl, ?_, ?_⟩
  · rw [hrun]
    exact gen_c4_files.1
  · rw [hrun]
    exact gen_c4_files.2

theorem c1_witness : c4FS.read inputFileName = some c4FileText
    ∧ ((visualTesterMain c4FS).writes = []
      ∧ (visualTesterMain c4FS).prints.length = 2
      ∧ (visualTesterMain c4FS).abort = some (.exc "NameError")
      ∧ (runGenerator c4FS).writes.map Prod.fst = [jsFileName, htmlFileName, mdFileName]
      ∧ (runGenerator c4FS).abort = none) :=
  ⟨rfl, c1_undefined_entry c4FS rfl⟩

/-- C2: when `best_sequences_quick_ref.json` is absent, the run prints the
one ❌ diagnostic, writes no file at all, and terminates at once through
`sys.exit(1)` — a non-zero exit status, no retry, no partial output. -/
theorem c2_missing_input_fail_fast (fs : FileSystem)
    (h : fs.read inputFileName = none) :
    runGenerator fs = RunTrace.mk
      ["❌ Optimal sequences not found. Please run optimal_move_sequences.py first."]
      [] (some (.exit 1)) := by
  simp only [runGenerator, load_optimal_sequences, h]

theorem c2_witness : (FileSystem.mk []).read inputFileName = none
    ∧ runGenerator (FileSystem.mk []) = RunTrace.mk
      ["❌ Optimal sequences not found. Please run optimal_move_sequences.py first."]
      [] (some (.exit 1)) :=
  ⟨rfl, c2_missing_input_fail_fast (FileSystem.mk []) rfl⟩

/-- C3: `_generate_robot_combinations` is a pure function of the three
fixed option lists: the triples of the records it returns are exactly the
nested enumeration of `difficulties` (outer) × `strategies` (middle) ×
`personalities` (inner), there are exactly 5 × 3 × 7 = 105 of them, and no
(difficulty, strategy, personality) triple repeats. -/
theorem c3_combination_enumeration :
    robot_combinations.map (fun c => (c.difficulty, c.strategy, c.personality))
        = difficulties.flatMap (fun d => strategies.flatMap (fun s =>
            personalities.map (fun p => (d, s, p))))
      ∧ robot_combinations.length = 105
      ∧ robot_combinations.length = difficulties.length * strategies.length
          * personalities.length
      ∧ (robot_combinations.map
          (fun c => (c.difficulty, c.strategy, c.personality))).Nodup := by
  refine ⟨rfl, rfl, rfl, by decide⟩

/-- C10: every generated record's display name is the title-cased
difficulty, the strategy with underscores replaced by spaces and
title-cased, and the title-cased personality, joined by single spaces
(`f"{difficulty.title()} {strategy.replace('_', ' ').title()}
{personality.title()}"`, line 46); in particular the triple
('lstm', 'not_to_lose', 'wildcard') is enumerated and yields the name
'Lstm Not To Lose Wildcard'. -/
theorem c10_display_name (c : Combo) (h : c ∈ robot_combinations) :
    c.name = displayNameC10 c.difficulty c.strategy c.personality
      ∧ (⟨"lstm", "not_to_lose", "wildcard", "Lstm Not To Lose Wildcard"⟩ : Combo)
          ∈ robot_combinations := by
  refine ⟨?_, by decide⟩
  have hall : robot_combinations.all
      (fun c => c.name == displayNameC10 c.difficulty c.strategy c.personality) = true := by
    decide
  have := List.all_eq_true.mp hall c h
  exact eq_of_beq this

theorem c10_witness :
    (⟨"lstm", "not_to_lose", "wildcard", "Lstm Not To Lose Wildcard"⟩ : Combo)
        ∈ robot_combinations
      ∧ ((⟨"lstm", "not_to_lose", "wildcard", "Lstm Not To Lose Wildcard"⟩ : Combo).name
          = displayNameC10 "lstm" "not_to_lose" "wildcard"
        ∧ (⟨"lstm", "not_to_lose", "wildcard", "Lstm Not To Lose Wildcard"⟩ : Combo)
            ∈ robot_combinations) :=
  ⟨by decide, c10_display_name _ (by decide)⟩

/-- C9: `analyze_combination_similarities` takes no arguments and, run on
its literal data tables, completes normally — every dictionary lookup,
`[0]` index and iteration it performs succeeds, so it raises no exception
and its only effect is the list of lines it prints to standard output. -/
theorem c9_reporter_total :
    ∃ ls : List String, analyze_combination_similarities = Except.ok ls :=
  ⟨_, rfl⟩

/-- C6: round-trip of the embedded sequence data.  For a well-formed
sequences document with the record fields the templates read, the JSON
blob `json.dumps` embeds into the generated JS artifact parses back to
exactly the original document, and the same document recovered from the
generated HTML page (the harness source between the page's outer backticks
with the backtick escaping undone) also parses back to exactly the
original document: no field is lost and no value changes shape. -/
theorem c6_round_trip (v r25 r50 b25 b50 : JSON) (a25 a50 : JNum) (n25 n50 : String)
    (xs25 xs50 : JItems) (html : String)
    (hwf : wfVal v = true)
    (h25 : pyGet v "25_moves" = .ok r25)
    (ha25 : pyGet r25 "avg_win_rate" = .ok (.num a25))
    (hb25 : pyGet r25 "beats_count" = .ok b25)
    (hn25 : pyGet r25 "name" = .ok (.str n25))
    (hs25 : pyGet r25 "sequence" = .ok (.arr xs25))
    (h50 : pyGet v "50_moves" = .ok r50)
    (ha50 : pyGet r50 "avg_win_rate" = .ok (.num a50))
    (hb50 : pyGet r50 "beats_count" = .ok b50)
    (hn50 : pyGet r50 "name" = .ok (.str n50))
    (hs50 : pyGet r50 "sequence" = .ok (.arr xs50))
    (hgen : create_html_test_page v = .ok html) :
    extractSequencesJS (generate_javascript_test_function v) = some v
      ∧ extractSequencesHTML html = some v :=
  ⟨extract_js v hwf,
    extract_html v r25 r50 b25 b50 a25 a50 n25 n50 xs25 xs50 html hwf
      h25 ha25 hb25 hn25 hs25 h50 ha50 hb50 hn50 hs50 hgen⟩

theorem c6_witness :
    wfVal c4Input = true
      ∧ pyGet c4Input "25_moves" = .ok c4Record
      ∧ pyGet c4Record "avg_win_rate" = .ok (.num (.dec 425 1))
      ∧ pyGet c4Record "beats_count" = .ok (.num (.int 60))
      ∧ pyGet c4Record "name" = .ok (.str "demo")
      ∧ pyGet c4Record "sequence" = .ok (.arr (.ofList
          [.str "paper", .str "stone", .str "scissor"]))
      ∧ pyGet c4Input "50_moves" = .ok c4Record
      ∧ (extractSequencesJS (generate_javascript_test_function c4Input) = some c4Input
        ∧ extractSequencesHTML (htmlPart1 ++ format1f (.dec 425 1) ++ htmlPart2
            ++ pyStr (.num (.int 60)) ++ htmlPart3 ++ pyTitle "demo" ++ htmlPart4
            ++ "<div class=\"move paper\">Paper</div> <div class=\"move stone\">Stone</div> <div class=\"move scissor\">Scissor</div>"
            ++ htmlPart5 ++ format1f (.dec 425 1) ++ htmlPart6 ++ pyStr (.num (.int 60))
            ++ htmlPart7 ++ pyTitle "demo" ++ htmlPart8
            ++ "<div class=\"move paper\">Paper</div> <div class=\"move stone\">Stone</div> <div class=\"move scissor\">Scissor</div>"
            ++ htmlPart9 ++ escapeBTStr (generate_javascript_test_function c4Input)
            ++ htmlPart10) = some c4Input) :=
  ⟨by decide, rfl, rfl, rfl, rfl, rfl, rfl,
    c6_round_trip c4Input c4Record c4Record (.num (.int 60)) (.num (.int 60))
      (.dec 425 1) (.dec 425 1) "demo" "demo"
      (.ofList [.str "paper", .str "stone", .str "scissor"])
      (.ofList [.str "paper", .str "stone", .str "scissor"]) _
      (by decide) rfl rfl rfl rfl rfl rfl rfl rfl rfl rfl html_c4⟩

theorem lookup_filter_ne (m n : String) (h : m ≠ n) : ∀ l : List (String × String),
    (l.filter (fun p => p.1 != n)).lookup m = l.lookup m
  | [] => rfl
  | (k, v) :: es => by
      by_cases hk : k = n
      · subst hk
        have hm : (m == k) = false := beq_false_of_ne h
        simp only [List.filter_cons, bne_self_eq_false, Bool.false_eq_true, if_false,
          List.lookup, hm]
        exact lookup_filter_ne m k h es
      · have hkeep : (k != n) = true := bne_iff_ne.mpr hk
        simp only [List.filter_cons, hkeep, if_true, List.lookup]
        cases hmk : m == k with
        | true => rfl
        | false => exact lookup_filter_ne m n h es

theorem read_write_ne (fs : FileSystem) (n c m : String) (h : m ≠ n) :
    (fs.write n c).read m = fs.read m := by
  have hm : (m == n) = false := beq_false_of_ne h
  simp only [FileSystem.write, FileSystem.read, List.lookup, hm]
  exact lookup_filter_ne m n h fs.files

theorem read_applyWrites (m : String) : ∀ (ws : List (String × String)) (fs : FileSystem),
    (∀ p ∈ ws, p.1 ≠ m) → (applyWrites fs ws).read m = fs.read m
  | [], _, _ => rfl
  | (n, c) :: ws, fs, h => by
      have hn : n ≠ m := h (n, c) (by simp)
      rw [applyWrites, read_applyWrites m ws _ (fun p hp => h p (by simp [hp])),
        read_write_ne fs n c m (Ne.symm hn)]

theorem gen_writes_not_input (v : JSON) :
    ∀ p ∈ (generate_visual_test_files v).writes, p.1 ≠ inputFileName := by
  intro p hp
  rw [generate_visual_test_files] at hp
  cases hh : create_html_test_page v with
  | error e =>
      rw [hh] at hp
      simp only [List.mem_singleton] at hp
      rw [hp]
      exact (by decide : jsFileName ≠ inputFileName)
  | ok html =>
      rw [hh] at hp
      cases hm : manualInstructionsMd v with
      | error e =>
          rw [hm] at hp
          simp only [List.mem_cons, List.not_mem_nil, or_false] at hp
          rcases hp with rfl | rfl
          · exact (by decide : jsFileName ≠ inputFileName)
          · exact (by decide : htmlFileName ≠ inputFileName)
      | ok md =>
          rw [hm] at hp
          simp only [List.mem_cons, List.not_mem_nil, or_false] at hp
          rcases hp with rfl | rfl | rfl
          · exact (by decide : jsFileName ≠ inputFileName)
          · exact (by decide : htmlFileName ≠ inputFileName)
          · exact (by decide : mdFileName ≠ inputFileName)

theorem run_writes_not_input (fs : FileSystem) :
    ∀ p ∈ (runGenerator fs).writes, p.1 ≠ inputFileName := by
  intro p hp
  cases hr : fs.read inputFileName with
  | none =>
      simp only [runGenerator, load_optimal_sequences, hr] at hp
      exact absurd hp (List.not_mem_nil p)
  | some txt =>
      cases hj : jsonLoads txt with
      | none =>
          simp only [runGenerator, load_optimal_sequences, hr, hj] at hp
          exact absurd hp (List.not_mem_nil p)
      | some v =>
          simp only [runGenerator, load_optimal_sequences, hr, hj] at hp
          exact gen_writes_not_input v p hp

theorem runGenerator_read_congr (fs1 fs2 : FileSystem)
    (h : fs1.read inputFileName = fs2.read inputFileName) :
    runGenerator fs1 = runGenerator fs2 := by
  rw [runGenerator, runGenerator, load_optimal_sequences, load_optimal_sequences, h]

/-- C7: the generator reads nothing but the input document — two file
systems agreeing on `best_sequences_quick_ref.json` produce identical
traces — and its three writes never touch the input file, so running it a
second time over the files the first run wrote produces a byte-identical
trace: the same prints, the same three file contents, the same exit. -/
theorem c7_idempotent :
    (∀ fs1 fs2 : FileSystem, fs1.read inputFileName = fs2.read inputFileName →
        runGenerator fs1 = runGenerator fs2)
      ∧ ∀ fs : FileSystem,
          runGenerator (applyWrites fs (runGenerator fs).writes) = runGenerator fs := by
  refine ⟨runGenerator_read_congr, fun fs => ?_⟩
  exact runGenerator_read_congr _ fs
    (read_applyWrites inputFileName (runGenerator fs).writes fs (run_writes_not_input fs))

theorem c7_witness :
    c4FS.read inputFileName = c4FS.read inputFileName
      ∧ runGenerator c4FS = runGenerator c4FS
      ∧ runGenerator (applyWrites c4FS (runGenerator c4FS).writes) = runGenerator c4FS :=
  ⟨rfl, c7_idempotent.1 c4FS c4FS rfl, c7_idempotent.2 c4FS⟩

/-- C8: whenever the harness's per-combination test completes, the
outcome counters of its result are exactly what the move-replay loop
accumulated, `totalMoves` is the sum of the human, robot and tie counters,
and the derived win rate is human wins divided by total moves times 100 —
with the guard that makes the computation total: a run in which no outcome
was captured yields win rate 0 instead of dividing by zero. -/
theorem c8_win_rate (env : BrowserEnv) (i : Nat) (s : List String) (c : Combo)
    (res : ComboResult) (l : List String)
    (h : testSequenceAgainstCombo env i s c = .ok res l) :
    (∃ lw, playMoves env i s.length 0 s ⟨0, 0, 0⟩ = .ok res.wins lw)
      ∧ res.totalMoves = res.wins.human + res.wins.robot + res.wins.tie
      ∧ res.winRate = (if 0 < res.totalMoves
          then ((res.wins.human : ℚ) / (res.totalMoves : ℚ)) * 100 else 0)
      ∧ (res.totalMoves = 0 → res.winRate = 0) := by
  rw [testSequenceAgainstCombo] at h
  cases hc : setRobotConfiguration env c with
  | thrown e l0 => rw [hc] at h; simp [StepEnd.bind] at h
  | reload l0 => rw [hc] at h; simp [StepEnd.bind] at h
  | ok u l0 =>
      rw [hc] at h
      cases hrg : harnessResetGame env with
      | thrown e l1 => rw [hrg] at h; simp [StepEnd.bind] at h
      | reload l1 => rw [hrg] at h; simp [StepEnd.bind] at h
      | ok u1 l1 =>
          rw [hrg] at h
          cases hpm : playMoves env i s.length 0 s ⟨0, 0, 0⟩ with
          | thrown e l2 => rw [hpm] at h; simp [StepEnd.bind] at h
          | reload l2 => rw [hpm] at h; simp [StepEnd.bind] at h
          | ok w l2 =>
              rw [hpm] at h
              simp only [StepEnd.bind] at h
              injection h with h1 h2
              subst h1
              refine ⟨⟨l2, rfl⟩, rfl, rfl, fun h0 => ?_⟩
              have h0' : w.human + w.robot + w.tie = 0 := h0
              show (if 0 < w.human + w.robot + w.tie
                then ((w.human : ℚ) / ((w.human + w.robot + w.tie : Nat) : ℚ)) * 100
                else 0) = 0
              rw [h0']
              simp

theorem c8_witness :
    testSequenceAgainstCombo ⟨true, true, true, true, true, true, true, true, fun _ _ => none⟩
        0 ["paper"] ⟨"random", "balanced", "neutral", "Random Balanced Neutral"⟩
      = .ok ⟨⟨0, 0, 0⟩, 0, 0⟩
          ["  🔧 Robot configured: random + balanced + neutral",
            "  Move 1/1: Playing paper",
            "  Results: 0W-0L-0T (" ++ qToFixed1 0 ++ "% win rate)"]
    ∧ ((∃ lw, playMoves ⟨true, true, true, true, true, true, true, true, fun _ _ => none⟩
          0 (["paper"] : List String).length 0 ["paper"] ⟨0, 0, 0⟩
          = .ok (ComboResult.mk ⟨0, 0, 0⟩ 0 0).wins lw)
      ∧ (ComboResult.mk ⟨0, 0, 0⟩ 0 0).totalMoves
          = (ComboResult.mk ⟨0, 0, 0⟩ 0 0).wins.human
            + (ComboResult.mk ⟨0, 0, 0⟩ 0 0).wins.robot
            + (ComboResult.mk ⟨0, 0, 0⟩ 0 0).wins.tie
      ∧ (ComboResult.mk ⟨0, 0, 0⟩ 0 0).winRate
          = (if 0 < (ComboResult.mk ⟨0, 0, 0⟩ 0 0).totalMoves
            then (((ComboResult.mk ⟨0, 0, 0⟩ 0 0).wins.human : ℚ)
              / ((ComboResult.mk ⟨0, 0, 0⟩ 0 0).totalMoves : ℚ)) * 100 else 0)
      ∧ ((ComboResult.mk ⟨0, 0, 0⟩ 0 0).totalMoves = 0
          → (ComboResult.mk ⟨0, 0, 0⟩ 0 0).winRate = 0)) :=
  ⟨rfl, c8_win_rate ⟨true, true, true, true, true, true, true, true, fun _ _ => none⟩
    0 ["paper"] ⟨"random", "balanced", "neutral", "Random Balanced Neutral"⟩
    ⟨⟨0, 0, 0⟩, 0, 0⟩
    ["  🔧 Robot configured: random + balanced + neutral",
      "  Move 1/1: Playing paper",
      "  Results: 0W-0L-0T (" ++ qToFixed1 0 ++ "% win rate)"] rfl⟩

theorem c5_counterexample :
    startTestLoop envNoReset ["paper", "stone", "scissor"] "demo"
        = .reload ["\n🤖 Testing against: Random Balanced Neutral (1/105)",
            "  🔧 Robot configured: random + balanced + neutral"]
      ∧ startTestLoop envNoSetDifficulty ["paper", "stone", "scissor"] "demo"
        = .thrown "ReferenceError: setDifficulty is not defined"
            ["\n🤖 Testing against: Random Balanced Neutral (1/105)"] :=
  ⟨rfl, rfl⟩

theorem noSubmit_playMoves (ci total : Nat) : ∀ (ms : List String) (j : Nat) (w : Wins),
    ∃ l, playMoves envNoSubmit ci total j ms w = .ok w l
      ∧ (ms ≠ [] → "submitMove function not found" ∈ l)
  | [], j, w => ⟨[], rfl, fun h => absurd rfl h⟩
  | m :: ms, j, w => by
      obtain ⟨l, hl, _⟩ := noSubmit_playMoves ci total ms (j + 1) w
      have hpm : playMove envNoSubmit ci j = .ok none ["submitMove function not found"] := rfl
      refine ⟨("  Move " ++ (⟨natChars (j + 1)⟩ : String) ++ "/"
          ++ (⟨natChars total⟩ : String) ++ ": Playing " ++ m)
          :: "submitMove function not found" :: l, ?_, fun _ => by simp⟩
      simp only [playMoves, hpm, StepEnd.bind, Wins.add, hl, List.cons_append,
        List.nil_append]

theorem noSubmit_testSeq (i : Nat) (s : List String) (c : Combo) :
    ∃ res l, testSequenceAgainstCombo envNoSubmit i s c = .ok res l
      ∧ res.totalMoves = 0 ∧ res.winRate = 0 ∧ res.wins = ⟨0, 0, 0⟩
      ∧ (s ≠ [] → "submitMove function not found" ∈ l) := by
  obtain ⟨l, hl, hm⟩ := noSubmit_playMoves i s.length s 0 ⟨0, 0, 0⟩
  have hsrc : setRobotConfiguration envNoSubmit c = .ok ()
      ["  🔧 Robot configured: " ++ c.difficulty ++ " + " ++ c.strategy
        ++ " + " ++ c.personality] := rfl
  have hrg : harnessResetGame envNoSubmit = .ok () [] := rfl
  simp only [testSequenceAgainstCombo, hsrc, hrg, StepEnd.bind, hl, List.nil_append]
  refine ⟨_, _, rfl, rfl, rfl, rfl, fun hs => ?_⟩
  simp [hm hs]

theorem noSubmit_comboLoop (s : List String) (n : String) (total : Nat) :
    ∀ (cs : List Combo) (i : Nat),
    ∃ rs l, comboLoop envNoSubmit s n total i cs = .ok rs l
      ∧ rs.length = cs.length
      ∧ (∀ r ∈ rs, r.result.totalMoves = 0 ∧ r.result.winRate = 0
          ∧ r.result.wins = ⟨0, 0, 0⟩)
      ∧ (s ≠ [] → cs ≠ [] → "submitMove function not found" ∈ l)
  | [], i => ⟨[], [], rfl, rfl, by simp, fun _ h => absurd rfl h⟩
  | c :: cs, i => by
      obtain ⟨res, lt, ht, h0, hwr, hw0, hmem⟩ := noSubmit_testSeq i s c
      obtain ⟨rs, l, hloop, hlen, hall, _⟩ := noSubmit_comboLoop s n total cs (i + 1)
      simp only [comboLoop, ht, hloop, StepEnd.bind, List.append_nil]
      refine ⟨_, _, rfl, by simp [hlen], ?_, fun hs _ => ?_⟩
      · intro r hr
        rcases List.mem_cons.mp hr with rfl | hr
        · exact ⟨h0, hwr, hw0⟩
        · exact hall r hr
      · simp [hmem hs]

/-- C5 (corrected): of the five external globals the generated harness
references, only a missing `submitMove` is handled as the spec describes —
`playMove` logs `submitMove function not found` once per move and resolves
`null`, no outcome is counted, and the loop still visits all 105
combinations, each result ending with zero counters and win rate 0.  A
missing `resetGame` instead triggers the `location.reload()` fallback,
which replaces the page and kills the run without logging anything, and a
missing `setDifficulty` (or other setter, with its `<select>` present) is
an uncaught `ReferenceError` that rejects the whole loop — both refuted
concretely by this claim's counterexample theorem. -/
theorem c5_absent_submit_logged_noop (s : List String) (n : String) (hs : s ≠ []) :
    ∃ rs l, startTestLoop envNoSubmit s n = .ok rs l
      ∧ rs.length = 105
      ∧ (∀ r ∈ rs, r.result.totalMoves = 0 ∧ r.result.winRate = 0
          ∧ r.result.wins = ⟨0, 0, 0⟩)
      ∧ "submitMove function not found" ∈ l := by
  obtain ⟨rs, l, hloop, hlen, hall, hmem⟩ :=
    noSubmit_comboLoop s n robot_combinations.length robot_combinations 0
  exact ⟨rs, l, hloop, by rw [hlen]; rfl, hall, hmem hs (by decide)⟩

theorem c5_witness : (["paper"] : List String) ≠ []
    ∧ (∃ rs l, startTestLoop envNoSubmit ["paper"] "demo" = .ok rs l
      ∧ rs.length = 105
      ∧ (∀ r ∈ rs, r.result.totalMoves = 0 ∧ r.result.winRate = 0
          ∧ r.result.wins = ⟨0, 0, 0⟩)
      ∧ "submitMove function not found" ∈ l) :=
  ⟨by decide, c5_absent_submit_logged_noop ["paper"] "demo" (by decide)⟩
